import Mathlib

/-!
Verification of the country-club data pipeline
(`src/utils/data_loader.py`, `src/utils/web_scraper.py`,
`src/utils/fallback_data.py`).

Shallow embedding conventions:
* A pandas `DataFrame` with the canonical 11-column schema is a
  `List RawRow`; every frame built by this repository carries the full
  column set, so the `if col in df.columns` guards of the source are
  always true and are not modelled separately.
* A cell holds a `Value` (Python `str` or `int`); a missing key / `NaN`
  cell is `Option.none`.  `astype(str)` renders `none` as `"nan"`.
* Python's implicit global random generator is an explicit oracle:
  a `List Nat` of draws, threaded through every sampling function.
  `random.randint(a, b)` consumes one draw and lands in `[a, b]`.
* `pd.to_numeric(errors := coerce)` is modelled by `parseNumeric`, a
  decimal parser over rationals (sign, digits, optional fraction);
  exotic float spellings (exponents, infinities) are outside the model.
* Network and AI calls are oracles passed as function arguments;
  a Python exception raised by an external call is an explicit
  `CallResult.exn` value.
-/

/-- A Python scalar cell value: a string or an integer. -/
inductive Value where
  | vStr (s : String)
  | vInt (n : Int)
  deriving DecidableEq, Repr

open Value

/-- One raw record (a Python dict / one DataFrame row) over the canonical
11-column schema.  `none` models a missing key (NaN once in a frame). -/
structure RawRow where
  clubName : Option Value
  state : Option Value
  city : Option Value
  monthlyDues : Option Value
  contactPhone : Option Value
  website : Option Value
  address : Option Value
  prestigeLevel : Option Value
  membershipType : Option Value
  initiationFee : Option Value
  otherCosts : Option Value
  deriving DecidableEq, Repr

/-- A row of the cleaned table produced by `clean_and_validate_data`:
string columns are strings, `Monthly Dues` and `Initiation Fee` are
numeric. -/
structure CleanedRow where
  clubName : String
  state : String
  city : String
  monthlyDues : Rat
  contactPhone : String
  website : String
  address : String
  prestigeLevel : String
  membershipType : String
  initiationFee : Rat
  otherCosts : String
  deriving DecidableEq, Repr

/-- Python truthiness of an optional cell: absent, `""` and `0` are falsy. -/
def truthyO : Option Value → Bool
  | none => false
  | some (vStr s) => s ≠ ""
  | some (vInt n) => n ≠ 0

/-- Characters stripped by Python `str.strip()` (ASCII whitespace). -/
def isSpaceChar (c : Char) : Bool :=
  c = ' ' ∨ c = '\t' ∨ c = '\n' ∨ c = '\r' ∨ c = '\x0b' ∨ c = '\x0c'

/-- Python `str.strip()`. -/
def stripStr (s : String) : String :=
  ⟨((s.data.dropWhile isSpaceChar).reverse.dropWhile isSpaceChar).reverse⟩

/-- Python `str.upper()` (ASCII fragment). -/
def upperStr (s : String) : String :=
  ⟨s.data.map Char.toUpper⟩

/-- Python `str.lower()` (ASCII fragment). -/
def lowerStr (s : String) : String :=
  ⟨s.data.map Char.toLower⟩

/-- Pandas `str.replace(c, "")` for a one-character pattern: removes every
occurrence of the character. -/
def removeChar (c : Char) (s : String) : String :=
  ⟨s.data.filter (· ≠ c)⟩

/-- `p` is a leading fragment of `s` (Python `str.startswith`). -/
def strLeads : List Char → List Char → Bool
  | [], _ => true
  | _ :: _, [] => false
  | a :: ps, b :: ss => a = b && strLeads ps ss

/-- Decimal digit character for `n < 10`. -/
def digitChar (n : Nat) : Char := Char.ofNat (48 + n)

/-- Digits of `n`, most significant first (`fuel` bounds the recursion). -/
def natDigitsAux : Nat → Nat → List Char
  | 0, _ => []
  | fuel + 1, n =>
      if n < 10 then [digitChar n]
      else natDigitsAux fuel (n / 10) ++ [digitChar (n % 10)]

/-- Python `str(n)` for a natural number. -/
def natRepr (n : Nat) : String := ⟨natDigitsAux (n + 1) n⟩

/-- Python `str(n)` for an integer. -/
def intRepr (n : Int) : String :=
  if n < 0 then "-" ++ natRepr n.natAbs else natRepr n.natAbs

/-- `astype(str)` on one cell: a missing value (NaN) renders as `"nan"`. -/
def valueToStr : Option Value → String
  | none => "nan"
  | some (vStr s) => s
  | some (vInt n) => intRepr n

/-- Decimal digit test. -/
def isDigitChar (c : Char) : Bool := 48 ≤ c.toNat ∧ c.toNat ≤ 57

/-- Numeric value of a digit list (most significant first). -/
def digitsVal (cs : List Char) : Nat :=
  cs.foldl (fun a c => a * 10 + (c.toNat - 48)) 0

/-- Model of `pd.to_numeric(errors := coerce)` on a rendered cell:
optionally signed decimal with optional fractional part, surrounding
whitespace ignored; anything else (including the `"nan"` rendering of a
missing value) coerces to `none`.  The rational is assembled with
`mkRat` on integer parts so that concrete runs reduce in the kernel. -/
def parseNumeric (s : String) : Option Rat :=
  let cs := (s.data.dropWhile isSpaceChar).reverse.dropWhile isSpaceChar |>.reverse
  let (sign, body) : Int × List Char :=
    match cs with
    | '-' :: r => (-1, r)
    | '+' :: r => (1, r)
    | r => (1, r)
  let intPart := body.takeWhile isDigitChar
  let rest := body.dropWhile isDigitChar
  match rest with
  | [] =>
      if intPart = [] then none
      else some (mkRat (sign * (digitsVal intPart : Int)) 1)
  | '.' :: frac =>
      if frac.all isDigitChar ∧ (intPart ≠ [] ∨ frac ≠ []) then
        some (mkRat
          (sign * ((digitsVal intPart : Int) * (10 : Int) ^ frac.length +
            (digitsVal frac : Int)))
          (10 ^ frac.length))
      else none
  | _ => none

/-- Join strings with the `"; "` separator (Python `"; ".join`). -/
def joinStrs : List String → String
  | [] => ""
  | [s] => s
  | s :: rest => s ++ "; " ++ joinStrs rest

/-- Outcome of a call into an external Python library: a value, or a
raised exception. -/
inductive CallResult (α : Type) where
  | ok (a : α)
  | exn
  deriving DecidableEq, Repr

/-- `random.randint(a, b)` against the draw oracle: consumes one draw and
returns a value in `[a, b]` (for `a ≤ b`); an exhausted oracle yields `a`. -/
def randint (a b : Int) (g : List Nat) : Int × List Nat :=
  match g with
  | [] => (a, [])
  | n :: rest => (a + (n : Int) % (b - a + 1), rest)

/-- `random.choice(l)` against the draw oracle. -/
def choiceOf (l : List String) (g : List Nat) : String × List Nat :=
  match g with
  | [] => (l.headD "", [])
  | n :: rest => (l.getD (n % l.length) "", rest)

/-! ## `CountryClubScraper` tables (`src/utils/web_scraper.py`, lines 11-35)

The Python multipliers are the floats 1.8, 1.7, …, 1.0; every one is a
multiple of 0.1, so they are stored here in tenths and
`int(base * multiplier)` becomes exact integer division
`(base * m10) / 10` (all bases are non-negative, so Python's
toward-zero truncation agrees with this division). -/

/-- One row of `self.base_pricing`: tier name, initiation range,
monthly range. -/
structure PricingEntry where
  tier : String
  initLo : Int
  initHi : Int
  monthlyLo : Int
  monthlyHi : Int
  deriving DecidableEq, Repr

/-- `self.base_pricing` of `CountryClubScraper.__init__`. -/
def base_pricing : List PricingEntry :=
  [ ⟨"Elite", 350000, 750000, 15000, 30000⟩,
    ⟨"Ultra-Luxury", 250000, 500000, 12000, 25000⟩,
    ⟨"Luxury", 150000, 350000, 8000, 20000⟩,
    ⟨"Premier", 75000, 200000, 4000, 12000⟩,
    ⟨"Championship", 50000, 150000, 3000, 8000⟩,
    ⟨"Traditional", 25000, 100000, 2500, 6000⟩,
    ⟨"Resort", 10000, 50000, 2000, 5000⟩,
    ⟨"Semi-Private", 5000, 25000, 1500, 4000⟩,
    ⟨"Public", 0, 5000, 100, 1000⟩,
    ⟨"Municipal", 0, 1000, 50, 500⟩ ]

/-- `prestige in self.base_pricing` and the subsequent lookup: only a
string cell can match a tier key. -/
def findPricing : Value → Option PricingEntry
  | vStr s => base_pricing.find? (fun e => e.tier = s)
  | vInt _ => none

/-- `self.location_multipliers` in tenths (for example `CA ↦ 18` stands
for the float 1.8). -/
def location_multipliers : List (String × Int) :=
  [("CA", 18), ("NY", 17), ("FL", 14), ("TX", 12), ("NJ", 16),
   ("CT", 15), ("MA", 15), ("HI", 14), ("AZ", 11), ("NV", 12)]

/-- `self.location_multipliers.get(state, self.location_multipliers[default])`:
missing or non-string states fall back to the default 1.0 (= 10 tenths). -/
def multiplierFor : Value → Int
  | vStr s => ((location_multipliers.find? (fun p => p.1 = s)).map Prod.snd).getD 10
  | vInt _ => 10

/-- `int(base * multiplier)` with the multiplier in tenths. -/
def applyMult (base m10 : Int) : Int := (base * m10) / 10

/-- `estimate_monthly_dues` (web_scraper.py lines 65-80). -/
def estimate_monthly_dues (r : RawRow) (g : List Nat) : Int × List Nat :=
  let prestige := r.prestigeLevel.getD (vStr "Traditional")
  let state := r.state.getD (vStr "Unknown")
  let p :=
    match findPricing prestige with
    | some e => randint e.monthlyLo e.monthlyHi g
    | none => randint 2000 6000 g
  (applyMult p.1 (multiplierFor state), p.2)

/-- `estimate_initiation_fee` (web_scraper.py lines 82-97). -/
def estimate_initiation_fee (r : RawRow) (g : List Nat) : Int × List Nat :=
  let prestige := r.prestigeLevel.getD (vStr "Traditional")
  let state := r.state.getD (vStr "Unknown")
  let p :=
    match findPricing prestige with
    | some e => randint e.initLo e.initHi g
    | none => randint 25000 100000 g
  (applyMult p.1 (multiplierFor state), p.2)

/-- `generate_other_costs` (web_scraper.py lines 99-134). -/
def generate_other_costs (r : RawRow) (g : List Nat) : String × List Nat :=
  let prestige := r.prestigeLevel.getD (vStr "Traditional")
  let membership := r.membershipType.getD (vStr "Private")
  if prestige = vStr "Elite" ∨ prestige = vStr "Ultra-Luxury" then
    let a := randint 5000 12000 g
    let b := randint 35 65 a.2
    let c := randint 300 600 b.2
    (joinStrs
      [ "Dining Minimum: $" ++ intRepr a.1 ++ "/year",
        "Valet Service: $" ++ intRepr b.1 ++ "/visit",
        "Spa Services: $" ++ intRepr c.1 ++ "/treatment" ], c.2)
  else if prestige = vStr "Luxury" ∨ prestige = vStr "Premier" then
    let a := randint 45 85 g
    let b := randint 2000 5000 a.2
    let c := randint 75 150 b.2
    (joinStrs
      [ "Cart Fees: $" ++ intRepr a.1 ++ "/round",
        "Dining Minimum: $" ++ intRepr b.1 ++ "/year",
        "Tennis Courts: $" ++ intRepr c.1 ++ "/hour" ], c.2)
  else if prestige = vStr "Championship" then
    let a := randint 35 65 g
    let b := randint 15 30 a.2
    (joinStrs
      [ "Cart Fees: $" ++ intRepr a.1 ++ "/round",
        "Practice Range: $" ++ intRepr b.1 ++ "/bucket" ], b.2)
  else if membership = vStr "Resort" then
    let a := randint 200 500 g
    let b := randint 250 450 a.2
    (joinStrs
      [ "Resort Amenities: $" ++ intRepr a.1 ++ "/month",
        "Spa Services: $" ++ intRepr b.1 ++ "/treatment" ], b.2)
  else
    let a := randint 35 65 g
    let b := randint 150 350 a.2
    (joinStrs
      [ "Cart Fees: $" ++ intRepr a.1 ++ "/round",
        "Pool Access: $" ++ intRepr b.1 ++ "/month" ], b.2)

/-- First fill step of `enhance_club_data`: `Monthly Dues`, written when
the key is absent or its value falsy. -/
def fillMonthly (r : RawRow) (g : List Nat) : RawRow × List Nat :=
  if truthyO r.monthlyDues then (r, g)
  else
    let p := estimate_monthly_dues r g
    ({ r with monthlyDues := some (vInt p.1) }, p.2)

/-- Second fill step of `enhance_club_data`: `Initiation Fee`. -/
def fillInitiation (r : RawRow) (g : List Nat) : RawRow × List Nat :=
  if truthyO r.initiationFee then (r, g)
  else
    let p := estimate_initiation_fee r g
    ({ r with initiationFee := some (vInt p.1) }, p.2)

/-- Third fill step of `enhance_club_data`: `Other Costs`. -/
def fillOther (r : RawRow) (g : List Nat) : RawRow × List Nat :=
  if truthyO r.otherCosts then (r, g)
  else
    let p := generate_other_costs r g
    ({ r with otherCosts := some (vStr p.1) }, p.2)

/-- `enhance_club_data` (web_scraper.py lines 49-63): the spec's
`fill_missing`.  Fills `Monthly Dues`, `Initiation Fee` and
`Other Costs`, in that order, exactly where absent or falsy. -/
def enhance_club_data (r : RawRow) (g : List Nat) : RawRow × List Nat :=
  let p1 := fillMonthly r g
  let p2 := fillInitiation p1.1 p1.2
  fillOther p2.1 p2.2

/-! ## Document fetcher and AI scraping loop (web_scraper.py lines 37-47
and 136-203)

`trafilatura.fetch_url` / `trafilatura.extract` are external calls; the
fetcher receives the per-attempt outcomes as oracles.  `fetch_url` may
raise, return `None`, or return a (possibly empty) page; likewise
`extract`.  `ai_extract_club_info` swallows every OpenAI failure and
returns `{}`; its result is the oracle `extract` below, where `none`
models the empty dict. -/

/-- `get_website_text_content` (web_scraper.py lines 37-47).  `attempts`
lists the successive outcomes `trafilatura.fetch_url` would produce; the
code performs a single attempt, so only the head is ever consumed.
`extractO` gives `trafilatura.extract` on the downloaded page. -/
def get_website_text_content
    (attempts : List (CallResult (Option String)))
    (extractO : String → CallResult (Option String)) : String :=
  match attempts.headD .exn with
  | .exn => ""
  | .ok none => ""
  | .ok (some downloaded) =>
      if downloaded = "" then ""
      else
        match extractO downloaded with
        | .exn => ""
        | .ok none => ""
        | .ok (some text) => text

/-- One iteration of the `scrape_private_clubs_with_ai` loop: `fetch`
gives the text the document fetcher returns for a URL, `extract` the
record `ai_extract_club_info` builds from (content, url) — `none` for
the empty dict.  Returns the records appended for this URL and the
remaining draw oracle. -/
def processUrl (fetch : String → String)
    (extract : String → String → Option RawRow)
    (url : String) (g : List Nat) : List RawRow × List Nat :=
  if fetch url ≠ "" ∧ 100 < (fetch url).length then
    match extract (fetch url) url with
    | some info =>
        if truthyO info.clubName then
          ([(enhance_club_data info g).1], (enhance_club_data info g).2)
        else ([], g)
    | none => ([], g)
  else ([], g)

/-- `scrape_private_clubs_with_ai` (web_scraper.py lines 185-203):
processes each URL independently and accumulates the results. -/
def scrape_private_clubs_with_ai (fetch : String → String)
    (extract : String → String → Option RawRow) :
    List String → List Nat → List RawRow × List Nat
  | [], g => ([], g)
  | u :: us, g =>
      let p := processUrl fetch extract u g
      let q := scrape_private_clubs_with_ai fetch extract us p.2
      (p.1 ++ q.1, q.2)

/-- `private_club_urls` of `get_comprehensive_club_data`
(web_scraper.py lines 419-428). -/
def private_club_urls : List String :=
  [ "https://www.usga.org/content/usga/home-page/articles/2019/08/the-most-exclusive-golf-clubs-in-america.html",
    "https://www.golfdigest.com/gallery/americas-100-greatest-golf-courses-2021-22",
    "https://www.golf.com/travel/courses/2019/08/26/most-exclusive-private-golf-clubs-america/",
    "https://www.clubcorp.com/our-clubs",
    "https://www.americangolf.com/club-directory",
    "https://www.troon.com/golf-clubs/",
    "https://www.discovery-land.com/clubs/",
    "https://www.eliteclub.com/directory" ]

/-- The dedup key of `drop_duplicates(subset := [Club Name, State])`:
the raw cell values, compared exactly. -/
def dedupKey (r : RawRow) : Option Value × Option Value :=
  (r.clubName, r.state)

/-- `drop_duplicates(keep := first)` over an arbitrary key: keeps each
row whose key has not been seen before. -/
def dedupBy {κ : Type} [DecidableEq κ] (key : RawRow → κ) :
    List RawRow → List κ → List RawRow
  | [], _ => []
  | x :: xs, seen =>
      if key x ∈ seen then dedupBy key xs seen
      else x :: dedupBy key xs (key x :: seen)

/-! ## Curated data (`web_scraper.py`, `fallback_data.py`) -/

/-- A fully-populated curated record (every canonical key present). -/
def clubRec (name state city : String) (dues : Int) (phone web addr
    prestige membership : String) (ini : Int) (other : String) : RawRow :=
  { clubName := some (vStr name), state := some (vStr state),
    city := some (vStr city), monthlyDues := some (vInt dues),
    contactPhone := some (vStr phone), website := some (vStr web),
    address := some (vStr addr), prestigeLevel := some (vStr prestige),
    membershipType := some (vStr membership),
    initiationFee := some (vInt ini), otherCosts := some (vStr other) }

/-- An `invited_clubs_data` record: no `Monthly Dues`, `Initiation Fee`
or `Other Costs` keys. -/
def invitedRec (name state city addr phone web prestige membership :
    String) : RawRow :=
  { clubName := some (vStr name), state := some (vStr state),
    city := some (vStr city), monthlyDues := none,
    contactPhone := some (vStr phone), website := some (vStr web),
    address := some (vStr addr), prestigeLevel := some (vStr prestige),
    membershipType := some (vStr membership),
    initiationFee := none, otherCosts := none }

/-- `top_clubs_data` of `scrape_golfday_top_clubs` (web_scraper.py lines 211-266); the function appends these records unchanged. -/
def scrape_golfday_top_clubs : List RawRow :=
  [ clubRec "Augusta National Golf Club" "GA" "Augusta"
      25000 "(706) 667-6000"
      "https://www.masters.com/"
      "2604 Washington Road, Augusta, GA 30904"
      "Elite" "Invitation Only" 500000
      "Cart Fees: $75/round; Caddies Required: $200/round",
    clubRec "Pine Valley Golf Club" "NJ" "Clementon"
      15000 "(856) 783-3000"
      "https://www.pinevalley.org/"
      "East Atlantic Avenue, Clementon, NJ 08021"
      "Elite" "Private" 350000
      "Caddies Required: $150/round; Dining Minimum: $5000/year",
    clubRec "Cypress Point Club" "CA" "Pebble Beach"
      12000 "(831) 624-2223"
      "https://www.cypresspoint.com/"
      "3150 17 Mile Drive, Pebble Beach, CA 93953"
      "Elite" "Private" 300000
      "Dining Minimum: $2000/year; Cart Fees: $85/round",
    clubRec "Winged Foot Golf Club" "NY" "Mamaroneck"
      8200 "(914) 698-8400"
      "https://www.wfgc.org/"
      "851 Fenimore Road, Mamaroneck, NY 10543"
      "Elite" "Private" 200000
      "Tennis Courts: $100/hour; Dining Minimum: $2500/year",
    clubRec "Shinnecock Hills Golf Club" "NY" "Southampton"
      7500 "(631) 283-1310"
      "https://www.shinnecockhills.com/"
      "200 Tuckahoe Road, Southampton, NY 11968"
      "Elite" "Private" 250000
      "Food & Beverage Minimum: $3000/year; Valet: $35/visit",
    clubRec "Seminole Golf Club" "FL" "Juno Beach"
      9500 "(561) 626-2000"
      "https://www.seminolegolfclub.com/"
      "901 Seminole Boulevard, Juno Beach, FL 33408"
      "Elite" "Private" 275000
      "Beach Club Access: $500/month; Valet: $40/visit" ]

/-- `invited_clubs_data` of `scrape_invited_clubs_data` (web_scraper.py lines 279-392): curated records without pricing fields. -/
def invited_clubs_data : List RawRow :=
  [ invitedRec "Shoal Creek" "AL" "Birmingham"
      "100 New Williamsburg Dr, Birmingham, AL 35242"
      "(205) 991-9000" "https://www.shoalcreekclub.com/"
      "Premier" "Private",
    invitedRec "Anchorage Golf Course" "AK" "Anchorage"
      "3651 O'Malley Rd, Anchorage, AK 99507"
      "(907) 522-3363" "https://www.anchoragegolfcourse.com/"
      "Traditional" "Public",
    invitedRec "Anthem Golf & Country Club" "AZ" "Phoenix"
      "2708 W Anthem Club Dr, Phoenix, AZ 85086"
      "(623) 742-6200" "https://www.invitedclubs.com/clubs/anthem-golf-country-club"
      "Championship" "Private",
    invitedRec "Desert Mountain Club" "AZ" "Scottsdale"
      "10222 E Southwind Ln, Scottsdale, AZ 85262"
      "(480) 488-7300" "https://www.desertmountainclub.com/"
      "Luxury" "Private",
    invitedRec "Chenal Country Club" "AR" "Little Rock"
      "1 Chenal Club Blvd, Little Rock, AR 72223"
      "(501) 821-5591" "https://www.chenalcountryclub.com/"
      "Premier" "Private",
    invitedRec "Aliso Viejo Country Club" "CA" "Aliso Viejo"
      "33 Santa Barbara Dr, Aliso Viejo, CA 92656"
      "(949) 598-9200" "https://www.invitedclubs.com/clubs/aliso-viejo-country-club"
      "Premier" "Private",
    invitedRec "Pebble Beach Golf Links" "CA" "Pebble Beach"
      "1700 17 Mile Dr, Pebble Beach, CA 93953"
      "(831) 624-3811" "https://www.pebblebeach.com/"
      "Ultra-Luxury" "Resort",
    invitedRec "Los Angeles Country Club" "CA" "Los Angeles"
      "10101 Wilshire Blvd, Los Angeles, CA 90024"
      "(310) 276-6104" "https://www.lacc.org/"
      "Elite" "Private",
    invitedRec "Cherry Hills Country Club" "CO" "Cherry Hills Village"
      "4125 S University Blvd, Cherry Hills Village, CO 80113"
      "(303) 761-9900" "https://www.cherryhillscc.org/"
      "Premier" "Private",
    invitedRec "Castle Pines Golf Club" "CO" "Castle Rock"
      "1000 Hummingbird Ln, Castle Rock, CO 80108"
      "(303) 688-6000" "https://www.castlepinesgc.com/"
      "Luxury" "Private",
    invitedRec "Winged Foot Golf Club" "CT" "Greenwich"
      "1 Stanwich Rd, Greenwich, CT 06831"
      "(203) 869-4444" "https://www.stanwichclub.com/"
      "Elite" "Private",
    invitedRec "Hartford Golf Club" "CT" "West Hartford"
      "134 Norwood Rd, West Hartford, CT 06117"
      "(860) 236-9646" "https://www.hartfordgolfclub.com/"
      "Premier" "Private",
    invitedRec "Wilmington Country Club" "DE" "Wilmington"
      "4825 Kennett Pike, Wilmington, DE 19807"
      "(302) 655-6464" "https://www.wilmingtoncountryclub.org/"
      "Premier" "Private",
    invitedRec "TPC Sawgrass" "FL" "Ponte Vedra Beach"
      "110 Championship Way, Ponte Vedra Beach, FL 32082"
      "(904) 273-3235" "https://www.tpc.com/sawgrass/"
      "Championship" "Semi-Private",
    invitedRec "Ocean Reef Club" "FL" "Key Largo"
      "35 Ocean Reef Dr, Key Largo, FL 33037"
      "(305) 367-2611" "https://www.oceanreef.com/"
      "Ultra-Luxury" "Private",
    invitedRec "Bay Hill Club & Lodge" "FL" "Orlando"
      "9000 Bay Hill Blvd, Orlando, FL 32819"
      "(407) 876-2429" "https://www.bayhill.com/"
      "Premier" "Resort",
    invitedRec "Atlanta National Golf Club" "GA" "Milton"
      "350 Tournament Players Dr, Milton, GA 30004"
      "(770) 442-8801" "https://www.invitedclubs.com/clubs/atlanta-national-golf-club"
      "Premier" "Private",
    invitedRec "East Lake Golf Club" "GA" "Atlanta"
      "2575 Alston Dr SE, Atlanta, GA 30317"
      "(404) 377-2218" "https://www.eastlakegolfclub.com/"
      "Championship" "Private",
    invitedRec "Waialae Country Club" "HI" "Honolulu"
      "4997 Kahala Ave, Honolulu, HI 96816"
      "(808) 734-2151" "https://www.waialaecountryclub.com/"
      "Premier" "Private",
    invitedRec "Hillcrest Country Club" "ID" "Boise"
      "2700 E Bogus Basin Rd, Boise, ID 83702"
      "(208) 336-1661" "https://www.hillcrestboise.com/"
      "Traditional" "Private",
    invitedRec "Medinah Country Club" "IL" "Medinah"
      "6N001 Medinah Rd, Medinah, IL 60157"
      "(630) 773-1700" "https://www.medinahcc.org/"
      "Premier" "Private",
    invitedRec "Chicago Golf Club" "IL" "Wheaton"
      "25W253 Warrenville Rd, Wheaton, IL 60189"
      "(630) 665-2988" "https://www.chicagogolfclub.org/"
      "Elite" "Private",
    invitedRec "Crooked Stick Golf Club" "IN" "Carmel"
      "1964 Burning Tree Ln, Carmel, IN 46032"
      "(317) 844-9809" "https://www.crookedstick.org/"
      "Premier" "Private",
    invitedRec "Des Moines Golf & Country Club" "IA" "West Des Moines"
      "1600 Jordan Creek Pkwy, West Des Moines, IA 50266"
      "(515) 223-8866" "https://www.dmgcc.com/"
      "Traditional" "Private",
    invitedRec "Mission Hills Country Club" "KS" "Mission Hills"
      "5400 Mission Dr, Mission Hills, KS 66208"
      "(913) 362-9971" "https://www.missionhillscc.org/"
      "Premier" "Private",
    invitedRec "Valhalla Golf Club" "KY" "Louisville"
      "15503 Shelbyville Rd, Louisville, KY 40245"
      "(502) 245-4475" "https://www.valhallagolfclub.com/"
      "Championship" "Private",
    invitedRec "TPC Louisiana" "LA" "Avondale"
      "11001 Lapalco Blvd, Avondale, LA 70094"
      "(504) 436-8721" "https://www.tpc.com/louisiana/"
      "Championship" "Semi-Private",
    invitedRec "Portland Country Club" "ME" "Falmouth"
      "58 Foreside Rd, Falmouth, ME 04105"
      "(207) 781-4464" "https://www.portlandcc.org/"
      "Traditional" "Private",
    invitedRec "Congressional Country Club" "MD" "Bethesda"
      "8500 River Rd, Bethesda, MD 20817"
      "(301) 469-2000" "https://www.ccclub.org/"
      "Elite" "Private",
    invitedRec "The Country Club" "MA" "Brookline"
      "191 Clyde St, Brookline, MA 02467"
      "(617) 566-0240" "https://www.tccbrookline.org/"
      "Elite" "Private",
    invitedRec "Oakland Hills Country Club" "MI" "Bloomfield Hills"
      "3951 W Maple Rd, Bloomfield Hills, MI 48301"
      "(248) 433-6500" "https://www.oaklandhillscc.com/"
      "Premier" "Private",
    invitedRec "Hazeltine National Golf Club" "MN" "Chaska"
      "1900 Hazeltine Blvd, Chaska, MN 55318"
      "(952) 448-4029" "https://www.hazeltine.com/"
      "Championship" "Private",
    invitedRec "Country Club of Jackson" "MS" "Jackson"
      "345 Saint Andrews Dr, Jackson, MS 39216"
      "(601) 981-3223" "https://www.ccjackson.com/"
      "Traditional" "Private",
    invitedRec "Bellerive Country Club" "MO" "St. Louis"
      "11160 Ladue Rd, St. Louis, MO 63141"
      "(314) 434-7500" "https://www.bellerivecc.org/"
      "Premier" "Private",
    invitedRec "Big Sky Golf Club" "MT" "Big Sky"
      "1 Meadow Village Dr, Big Sky, MT 59716"
      "(406) 995-5780" "https://www.bigskygolfclub.com/"
      "Resort" "Resort",
    invitedRec "Omaha Country Club" "NE" "Omaha"
      "6900 Country Club Rd, Omaha, NE 68152"
      "(402) 498-8000" "https://www.omahacc.com/"
      "Traditional" "Private",
    invitedRec "Shadow Creek Golf Course" "NV" "Las Vegas"
      "3 Shadow Creek Dr, Las Vegas, NV 89030"
      "(702) 791-7161" "https://www.shadowcreek.com/"
      "Ultra-Luxury" "Private",
    invitedRec "Eastman Golf Links" "NH" "Grantham"
      "7 Clubhouse Ln, Grantham, NH 03753"
      "(603) 863-4500" "https://www.eastmangolflinks.com/"
      "Traditional" "Semi-Private",
    invitedRec "Ridgewood Country Club" "NJ" "Paramus"
      "838 E Ridgewood Ave, Paramus, NJ 07652"
      "(201) 444-7529" "https://www.ridgewoodcc.org/"
      "Premier" "Private",
    invitedRec "Paa-Ko Ridge Golf Club" "NM" "Sandia Park"
      "1 Clubhouse Dr, Sandia Park, NM 87047"
      "(505) 281-6000" "https://www.paakoridge.com/"
      "Resort" "Semi-Private",
    invitedRec "Bethpage Black Course" "NY" "Farmingdale"
      "99 Quaker Meeting House Rd, Farmingdale, NY 11735"
      "(516) 249-0700" "https://www.bethpagegolf.com/"
      "Championship" "Public",
    invitedRec "Quail Hollow Club" "NC" "Charlotte"
      "3700 Gleneagles Rd, Charlotte, NC 28210"
      "(704) 552-9174" "https://www.quailhollowclub.com/"
      "Premier" "Private",
    invitedRec "Fargo Country Club" "ND" "Fargo"
      "3902 Rose Creek Pkwy, Fargo, ND 58104"
      "(701) 235-6932" "https://www.fargocc.com/"
      "Traditional" "Private",
    invitedRec "Muirfield Village Golf Club" "OH" "Dublin"
      "5750 Memorial Dr, Dublin, OH 43017"
      "(614) 889-6700" "https://www.muirfieldvillage.com/"
      "Premier" "Private",
    invitedRec "Southern Hills Country Club" "OK" "Tulsa"
      "2636 E 61st St S, Tulsa, OK 74136"
      "(918) 492-3351" "https://www.southernhillscc.com/"
      "Premier" "Private",
    invitedRec "Pumpkin Ridge Golf Club" "OR" "North Plains"
      "12930 NW Old Pumpkin Ridge Rd, North Plains, OR 97133"
      "(503) 647-4747" "https://www.pumpkinridge.com/"
      "Championship" "Semi-Private",
    invitedRec "Aronimink Golf Club" "PA" "Newtown Square"
      "3600 St Davids Rd, Newtown Square, PA 19073"
      "(610) 356-1235" "https://www.aronimink.org/"
      "Premier" "Private",
    invitedRec "Newport Country Club" "RI" "Newport"
      "200 Harrison Ave, Newport, RI 02840"
      "(401) 846-4646" "https://www.newportcc.org/"
      "Premier" "Private",
    invitedRec "Kiawah Island Golf Resort" "SC" "Kiawah Island"
      "1 Sanctuary Beach Dr, Kiawah Island, SC 29455"
      "(843) 768-2121" "https://www.kiawahresort.com/"
      "Ultra-Luxury" "Resort",
    invitedRec "Minnehaha Country Club" "SD" "Sioux Falls"
      "3000 N Cliff Ave, Sioux Falls, SD 57104"
      "(605) 334-4100" "https://www.minnehahacc.com/"
      "Traditional" "Private",
    invitedRec "The Hermitage Golf Course" "TN" "Old Hickory"
      "3939 Old Hickory Blvd, Old Hickory, TN 37138"
      "(615) 847-4001" "https://www.hermitagegolf.com/"
      "Premier" "Semi-Private",
    invitedRec "Colonial Country Club" "TX" "Fort Worth"
      "3735 Country Club Cir, Fort Worth, TX 76109"
      "(817) 927-4200" "https://www.colonialfw.com/"
      "Premier" "Private",
    invitedRec "Houston Country Club" "TX" "Houston"
      "1 Potomac Dr, Houston, TX 77057"
      "(713) 465-8181" "https://www.houstoncountryclub.org/"
      "Elite" "Private",
    invitedRec "Oakridge Country Club" "UT" "Farmington"
      "1492 Oakridge Country Club Dr, Farmington, UT 84025"
      "(801) 451-3773" "https://www.oakridgecc.com/"
      "Traditional" "Private",
    invitedRec "Ekwanok Country Club" "VT" "Manchester"
      "3899 Main St, Manchester, VT 05254"
      "(802) 362-3230" "https://www.ekwanok.com/"
      "Traditional" "Private",
    invitedRec "TPC Potomac at Avenel Farm" "VA" "Potomac Falls"
      "10000 Oaklyn Dr, Potomac Falls, VA 20165"
      "(703) 444-9400" "https://www.tpc.com/potomac/"
      "Championship" "Semi-Private",
    invitedRec "Sahalee Country Club" "WA" "Sammamish"
      "21200 NE 28th St, Sammamish, WA 98074"
      "(425) 455-8400" "https://www.sahaleecc.com/"
      "Premier" "Private",
    invitedRec "The Greenbrier" "WV" "White Sulphur Springs"
      "101 W Main St, White Sulphur Springs, WV 24986"
      "(855) 453-4858" "https://www.greenbrier.com/"
      "Ultra-Luxury" "Resort",
    invitedRec "Whistling Straits" "WI" "Haven"
      "N8501 County Rd LS, Haven, WI 53083"
      "(920) 457-4446" "https://www.americanclubresort.com/"
      "Ultra-Luxury" "Resort",
    invitedRec "Jackson Hole Golf & Tennis Club" "WY" "Jackson"
      "5000 Spring Gulch Rd, Jackson, WY 83001"
      "(307) 733-3111" "https://www.jhgtc.org/"
      "Luxury" "Private",
    invitedRec "Congressional Country Club" "DC" "Washington"
      "8500 River Rd, Bethesda, MD 20817"
      "(301) 469-2000" "https://www.ccclub.org/"
      "Elite" "Private" ]

/-- `clubs_data` of `get_fallback_country_club_data` (fallback_data.py lines 12-338). -/
def get_fallback_country_club_data : List RawRow :=
  [ clubRec "Augusta National Golf Club" "GA" "Augusta"
      25000 "(706) 667-6000"
      "https://www.masters.com"
      "2604 Washington Rd, Augusta, GA 30904"
      "Elite" "Invitation Only" 500000
      "Cart Fees: $75/round; Caddies Required: $200/round",
    clubRec "Pebble Beach Golf Links" "CA" "Pebble Beach"
      8500 "(831) 624-3811"
      "https://www.pebblebeach.com"
      "1700 17 Mile Dr, Pebble Beach, CA 93953"
      "Premier" "Semi-Private" 25000
      "Green Fees: $695/round; Cart Fees: $65/round",
    clubRec "Pine Valley Golf Club" "NJ" "Pine Valley"
      15000 "(856) 783-3000"
      "https://www.pinevalley.org"
      "Clementon Rd, Pine Valley, NJ 08021"
      "Elite" "Private" 350000
      "Caddies Required: $150/round; Dining Minimum: $5000/year",
    clubRec "Cypress Point Club" "CA" "Pebble Beach"
      12000 "(831) 624-2223"
      "https://www.cypresspoint.com"
      "3150 17 Mile Dr, Pebble Beach, CA 93953"
      "Elite" "Private" 300000
      "Dining Minimum: $2000/year; Cart Fees: $85/round",
    clubRec "Merion Golf Club" "PA" "Ardmore"
      6800 "(610) 642-5600"
      "https://www.meriongolfclub.com"
      "450 Ardmore Ave, Ardmore, PA 19003"
      "Premier" "Private" 125000
      "Locker Fees: $500/year; Cart Fees: $55/round",
    clubRec "Shinnecock Hills Golf Club" "NY" "Southampton"
      7500 "(631) 283-1310"
      "https://www.shinnecockhills.com"
      "200 Tuckahoe Rd, Southampton, NY 11968"
      "Elite" "Private" 250000
      "Food & Beverage Minimum: $3000/year; Valet: $35/visit",
    clubRec "Olympic Club" "CA" "San Francisco"
      4200 "(415) 761-1234"
      "https://www.olyclub.com"
      "599 Skyline Blvd, San Francisco, CA 94132"
      "Premier" "Private" 75000
      "Athletic Club Access: $200/month; Pool: $150/month",
    clubRec "Winged Foot Golf Club" "NY" "Mamaroneck"
      8200 "(914) 698-8400"
      "https://www.wfgc.org"
      "851 Fenimore Rd, Mamaroneck, NY 10543"
      "Elite" "Private" 200000
      "Tennis Courts: $100/hour; Dining Minimum: $2500/year",
    clubRec "Oakmont Country Club" "PA" "Oakmont"
      5500 "(412) 828-8000"
      "https://www.oakmontcountryclub.com"
      "1233 Hulton Rd, Oakmont, PA 15139"
      "Premier" "Private" 100000
      "Pool Access: $1500/year; Cart Fees: $45/round",
    clubRec "Congressional Country Club" "MD" "Bethesda"
      6200 "(301) 469-2000"
      "https://www.ccclub.org"
      "8500 River Rd, Bethesda, MD 20817"
      "Premier" "Private" 150000
      "Valet Parking: $25/visit; Tennis: $125/hour",
    clubRec "Baltusrol Golf Club" "NJ" "Springfield"
      5800 "(973) 376-1900"
      "https://www.baltusrol.org"
      "201 Shunpike Rd, Springfield, NJ 07081"
      "Premier" "Private" 110000
      "Range Balls: $15/bucket; Pool: $200/month",
    clubRec "Chicago Golf Club" "IL" "Wheaton"
      7200 "(630) 665-2988"
      "https://www.chicagogolfclub.org"
      "25W253 Warrenville Rd, Wheaton, IL 60189"
      "Elite" "Private" 180000
      "Bag Storage: $300/year; Dining Minimum: $2000/year",
    clubRec "Seminole Golf Club" "FL" "Juno Beach"
      9500 "(561) 626-2000"
      "https://www.seminolegolfclub.com"
      "901 Seminole Blvd, Juno Beach, FL 33408"
      "Elite" "Private" 275000
      "Beach Club Access: $500/month; Valet: $40/visit",
    clubRec "TPC Sawgrass" "FL" "Ponte Vedra Beach"
      3500 "(904) 273-3235"
      "https://www.tpc.com/sawgrass"
      "110 Championship Way, Ponte Vedra Beach, FL 32082"
      "Championship" "Semi-Private" 15000
      "Cart Fees: $55/round; Tournament Access: Premium",
    clubRec "Bandon Dunes Golf Resort" "OR" "Bandon"
      2800 "(541) 347-4380"
      "https://www.bandondunesgolf.com"
      "57744 Round Lake Dr, Bandon, OR 97411"
      "Destination" "Resort" 8000
      "Lodge Discount: 20% off; Spa Access: $150/day",
    clubRec "Kiawah Island Golf Resort" "SC" "Kiawah Island"
      4800 "(843) 266-4670"
      "https://www.kiawahresort.com"
      "1 Sanctuary Beach Dr, Kiawah Island, SC 29455"
      "Destination" "Resort" 25000
      "Resort Amenities: $200/month; Beach Access: $100/day",
    clubRec "Whistling Straits" "WI" "Haven"
      3200 "(920) 565-6080"
      "https://www.destinationkohler.com"
      "N8501 County Rd LS, Haven, WI 53083"
      "Championship" "Resort" 12000
      "Spa Access: $150/day; Hotel Discount: 15% off",
    clubRec "Bethpage Black Course" "NY" "Farmingdale"
      150 "(516) 249-0700"
      "https://www.nysparks.com"
      "99 Quaker Meeting House Rd, Farmingdale, NY 11735"
      "Public" "Public" 0
      "Tee Time Reservations: $10; Cart Rental: $45/round",
    clubRec "Torrey Pines Golf Course" "CA" "La Jolla"
      280 "(858) 452-3226"
      "https://www.sandiego.gov/golf"
      "11480 N Torrey Pines Rd, La Jolla, CA 92037"
      "Public" "Municipal" 0
      "Cart Rental: $45/round; Twilight Rates: Available",
    clubRec "Chambers Bay" "WA" "University Place"
      195 "(253) 460-4653"
      "https://www.chambersbaygolf.com"
      "6320 Grandview Dr W, University Place, WA 98467"
      "Championship" "Public" 0
      "Walking Only Course; Caddie Service Available",
    clubRec "Trump National Golf Club" "FL" "Jupiter"
      12500 "(561) 691-8700"
      "https://www.trumpnationaljupiter.com"
      "3505 W Clubhouse Dr, Jupiter, FL 33477"
      "Luxury" "Private" 200000
      "Spa Services: $300/treatment; Yacht Club Access: $800/month",
    clubRec "Shadow Creek Golf Course" "NV" "North Las Vegas"
      7500 "(702) 791-7161"
      "https://www.mgmresorts.com"
      "3 Shadow Creek Dr, North Las Vegas, NV 89031"
      "Ultra-Luxury" "Private" 350000
      "Helicopter Transport: $1500/trip; Exclusive Experience",
    clubRec "Streamsong Resort" "FL" "Bowling Green"
      4200 "(863) 428-1000"
      "https://www.streamsongresort.com"
      "1000 Streamsong Dr, Bowling Green, FL 33834"
      "Destination" "Resort" 18000
      "Fishing Excursions: $400/day; Lodge Access: Premium",
    clubRec "Sand Hills Golf Club" "NE" "Mullen"
      8500 "(308) 546-2237"
      "https://www.sandhillsgolfclub.com"
      "1901 Sand Hills Trail, Mullen, NE 69152"
      "Elite" "Private" 225000
      "Accommodations Required: $400/night; Remote Location Premium",
    clubRec "Prairie Dunes Country Club" "KS" "Hutchinson"
      3800 "(620) 662-0581"
      "https://www.prairiedunes.com"
      "4812 E 30th Ave, Hutchinson, KS 67502"
      "Traditional" "Private" 65000
      "Swimming Pool: $100/month; Tennis Courts: $50/hour" ]

/-- `us_states` of `validate_state_codes` (data_loader.py lines 143-155): full name to two-letter code. -/
def us_states : List (String × String) :=
  [("ALABAMA", "AL"), ("ALASKA", "AK"), ("ARIZONA", "AZ"),
   ("ARKANSAS", "AR"), ("CALIFORNIA", "CA"), ("COLORADO", "CO"),
   ("CONNECTICUT", "CT"), ("DELAWARE", "DE"), ("FLORIDA", "FL"),
   ("GEORGIA", "GA"), ("HAWAII", "HI"), ("IDAHO", "ID"),
   ("ILLINOIS", "IL"), ("INDIANA", "IN"), ("IOWA", "IA"),
   ("KANSAS", "KS"), ("KENTUCKY", "KY"), ("LOUISIANA", "LA"),
   ("MAINE", "ME"), ("MARYLAND", "MD"), ("MASSACHUSETTS", "MA"),
   ("MICHIGAN", "MI"), ("MINNESOTA", "MN"), ("MISSISSIPPI", "MS"),
   ("MISSOURI", "MO"), ("MONTANA", "MT"), ("NEBRASKA", "NE"),
   ("NEVADA", "NV"), ("NEW HAMPSHIRE", "NH"), ("NEW JERSEY", "NJ"),
   ("NEW MEXICO", "NM"), ("NEW YORK", "NY"), ("NORTH CAROLINA", "NC"),
   ("NORTH DAKOTA", "ND"), ("OHIO", "OH"), ("OKLAHOMA", "OK"),
   ("OREGON", "OR"), ("PENNSYLVANIA", "PA"), ("RHODE ISLAND", "RI"),
   ("SOUTH CAROLINA", "SC"), ("SOUTH DAKOTA", "SD"), ("TENNESSEE", "TN"),
   ("TEXAS", "TX"), ("UTAH", "UT"), ("VERMONT", "VT"),
   ("VIRGINIA", "VA"), ("WASHINGTON", "WA"), ("WEST VIRGINIA", "WV"),
   ("WISCONSIN", "WI"), ("WYOMING", "WY"), ("DISTRICT OF COLUMBIA", "DC") ]

/-- Enhance each record in order, threading the draw oracle
(the `for club_data in invited_clubs_data` loop). -/
def enhanceAll : List RawRow → List Nat → List RawRow × List Nat
  | [], g => ([], g)
  | r :: rs, g =>
      let p := enhance_club_data r g
      let q := enhanceAll rs p.2
      (p.1 :: q.1, q.2)

/-- `scrape_invited_clubs_data` (web_scraper.py lines 273-398): the
curated network records, each passed through `enhance_club_data`. -/
def scrape_invited_clubs_data (g : List Nat) : List RawRow × List Nat :=
  enhanceAll invited_clubs_data g

/-- `get_comprehensive_club_data` (web_scraper.py lines 400-450).
`fetch`/`extract` are the oracles of the AI scraping stage.  The staging
order is GolfDay curated, then Invited curated, then AI-extracted;
`drop_duplicates(subset := [Club Name, State], keep := first)` follows.
(The `required_columns` pass only adds missing columns; the fixed-schema
embedding always carries all columns, so it is the identity here.) -/
def get_comprehensive_club_data (fetch : String → String)
    (extract : String → String → Option RawRow) (g : List Nat) :
    List RawRow :=
  let elite := scrape_golfday_top_clubs
  let p := scrape_invited_clubs_data g
  let q := scrape_private_clubs_with_ai fetch extract private_club_urls p.2
  let all := elite ++ p.1 ++ q.1
  if all = [] then [] else dedupBy dedupKey all []

/-! ## Synthetic fallback generation (`fallback_data.py` lines 342-401) -/

/-- The `regions` catalog: state, cities, cost multiplier (in tenths). -/
def fallbackRegions : List (String × List String × Int) :=
  [ ("CA", ["Los Angeles", "San Diego", "Sacramento", "San Jose"], 18),
    ("TX", ["Dallas", "Houston", "Austin", "San Antonio"], 12),
    ("FL", ["Miami", "Tampa", "Orlando", "Jacksonville"], 14),
    ("NY", ["Buffalo", "Rochester", "Albany", "White Plains"], 17),
    ("IL", ["Chicago", "Rockford", "Peoria", "Springfield"], 13),
    ("OH", ["Columbus", "Cleveland", "Cincinnati", "Toledo"], 10),
    ("NC", ["Charlotte", "Raleigh", "Greensboro", "Asheville"], 11),
    ("GA", ["Atlanta", "Savannah", "Columbus", "Macon"], 11) ]

/-- The `club_types` catalog: type, membership kind, prestige tier. -/
def club_types : List (String × String × String) :=
  [ ("Country Club", "Private", "Premier"),
    ("Golf Club", "Private", "Traditional"),
    ("Golf Course", "Semi-Private", "Championship"),
    ("Country Club", "Private", "Luxury"),
    ("Golf Links", "Resort", "Destination") ]

/-- `phone_area_codes` of the generator. -/
def phone_area_codes : List (String × String) :=
  [("CA", "(714)"), ("TX", "(214)"), ("FL", "(305)"), ("NY", "(716)"),
   ("IL", "(312)"), ("OH", "(614)"), ("NC", "(704)"), ("GA", "(404)")]

/-- One iteration of the generator body (region index `i`, city index
`j`): draws are consumed in source order — monthly base, initiation
base, two phone numbers, street number, two street-name choices, zip,
and two `Other Costs` amounts. -/
def genClub (state : String) (mult10 : Int) (i j : Nat) (city : String)
    (g : List Nat) : RawRow × List Nat :=
  let ct := club_types.getD ((i + j) % club_types.length)
    ("Country Club", "Private", "Premier")
  let (baseMonthly, g1) := randint 2000 8000 g
  let monthly := applyMult baseMonthly mult10
  let (baseInit, g2) := randint 25000 150000 g1
  let ini := applyMult baseInit mult10
  let name := city ++ " " ++ ct.1
  let areaCode := ((phone_area_codes.find? (fun p => p.1 = state)).map
    Prod.snd).getD "(555)"
  let (p1, g3) := randint 100 999 g2
  let (p2, g4) := randint 1000 9999 g3
  let (a1, g5) := randint 100 9999 g4
  let (c1, g6) := choiceOf ["Main", "Oak", "Golf", "Country Club",
    "Championship"] g5
  let (c2, g7) := choiceOf ["St", "Rd", "Ave", "Dr"] g6
  let (a2, g8) := randint 10000 99999 g7
  let (o1, g9) := randint 35 75 g8
  let (o2, g10) := randint 150 300 g9
  ({ clubName := some (vStr name), state := some (vStr state),
     city := some (vStr city), monthlyDues := some (vInt monthly),
     contactPhone := some (vStr (areaCode ++ " " ++ intRepr p1 ++ "-" ++
       intRepr p2)),
     website := some (vStr ("https://www." ++
       removeChar ' ' (lowerStr city) ++ removeChar ' ' (lowerStr ct.1) ++
       ".com")),
     address := some (vStr (intRepr a1 ++ " " ++ c1 ++ " " ++ c2 ++ ", " ++
       city ++ ", " ++ state ++ " " ++ intRepr a2)),
     prestigeLevel := some (vStr ct.2.2),
     membershipType := some (vStr ct.2.1),
     initiationFee := some (vInt ini),
     otherCosts := some (vStr ("Cart Fees: $" ++ intRepr o1 ++
       "/round; Pool Access: $" ++ intRepr o2 ++ "/month")) }, g10)

/-- The inner `for j, city in enumerate(region.cities)` loop. -/
def genCities (state : String) (mult10 : Int) (i : Nat) :
    Nat → List String → List Nat → List RawRow × List Nat
  | _, [], g => ([], g)
  | j, c :: cs, g =>
      let p := genClub state mult10 i j c g
      let q := genCities state mult10 i (j + 1) cs p.2
      (p.1 :: q.1, q.2)

/-- The outer `for i, region in enumerate(regions)` loop. -/
def genRegions : Nat → List (String × List String × Int) → List Nat →
    List RawRow × List Nat
  | _, [], g => ([], g)
  | i, r :: rs, g =>
      let p := genCities r.1 r.2.2 i 0 r.2.1 g
      let q := genRegions (i + 1) rs p.2
      (p.1 ++ q.1, q.2)

/-- `get_extended_club_data` (fallback_data.py lines 342-401): the
curated fallback base concatenated with the synthetic records
(`pd.concat`, no dedup). -/
def get_extended_club_data (g : List Nat) : List RawRow × List Nat :=
  let p := genRegions 0 fallbackRegions g
  (get_fallback_country_club_data ++ p.1, p.2)

/-! ## Normalizer & Validator (`data_loader.py` lines 48-173) -/

/-- Pandas `Series.replace(nan, "")`: a full-cell match of the literal
string `"nan"` becomes empty. -/
def cleanOpt (s : String) : String := if s = "nan" then "" else s

/-- The currency strip of the numeric passes:
`astype(str).str.replace($, ).str.replace(,, )`. -/
def moneyStr (v : Option Value) : String :=
  removeChar ',' (removeChar '$' (valueToStr v))

/-- The `Website` pass tail: add `https://` when non-empty and
scheme-less. -/
def fixWebsite (w : String) : String :=
  if w ≠ "" ∧ ¬ strLeads "http://".data w.data ∧
      ¬ strLeads "https://".data w.data then
    "https://" ++ w
  else w

/-- Row-level reading of `clean_and_validate_data` (data_loader.py lines
48-129).  The source applies column passes to the whole frame with
row-filters interleaved (name filter first, dues filter after the dues
coercion); per row this is exactly the guard chain below, and the
column passes on distinct columns commute. -/
def cleanRow (r : RawRow) : Option CleanedRow :=
  let name := stripStr (valueToStr r.clubName)
  if name = "" then none
  else
    match parseNumeric (moneyStr r.monthlyDues) with
    | none => none
    | some dues =>
        if dues < 0 then none
        else some
          { clubName := name,
            state := upperStr (stripStr (valueToStr r.state)),
            city := stripStr (valueToStr r.city),
            monthlyDues := dues,
            contactPhone := cleanOpt (stripStr (valueToStr r.contactPhone)),
            website := fixWebsite (cleanOpt (stripStr (valueToStr r.website))),
            address := cleanOpt (stripStr (valueToStr r.address)),
            prestigeLevel :=
              cleanOpt (stripStr (valueToStr r.prestigeLevel)),
            membershipType :=
              cleanOpt (stripStr (valueToStr r.membershipType)),
            initiationFee := (parseNumeric (moneyStr r.initiationFee)).getD 0,
            otherCosts := cleanOpt (stripStr (valueToStr r.otherCosts)) }

/-- `clean_and_validate_data` over the whole frame (the final
`reset_index(drop := True)` renumbers rows and is the identity on the
list of rows). -/
def clean_and_validate_data (rows : List RawRow) : List CleanedRow :=
  rows.filterMap cleanRow

/-- `validate_state_codes` (data_loader.py lines 131-173): upper-case,
map full state names to codes (`replace(us_states)`; the `fillna` is a
no-op since `replace` leaves non-keys unchanged), then keep only rows
whose code is in the valid set.  No function of this repository calls
it. -/
def validate_state_codes (rows : List CleanedRow) : List CleanedRow :=
  (rows.map (fun r =>
    let s := upperStr r.state
    { r with state := ((us_states.find? (fun p => p.1 = s)).map
        Prod.snd).getD s }))
    |>.filter (fun r => (us_states.map Prod.snd).contains r.state)

/-! ## Pipeline orchestrator (`data_loader.py` lines 8-46) -/

/-- `load_country_clubs_data`.  `comp` is the outcome of the
`get_comprehensive_club_data()` call (its value, or `exn` when anything
inside the `try` raised before a table was produced); `g` is the draw
oracle for the fallback generator.  The `ValueError` of line 30 is
caught by the function's own `except` (line 37), which rebuilds from the
fallback; only a failure of that last resort surfaces as an error. -/
def load_country_clubs_data (comp : CallResult (List RawRow))
    (g : List Nat) : Except String (List CleanedRow) :=
  match comp with
  | .exn => .ok (clean_and_validate_data (get_extended_club_data g).1)
  | .ok df0 =>
      let p := if df0 = [] then get_extended_club_data g else (df0, g)
      if p.1 = [] then
        .ok (clean_and_validate_data (get_extended_club_data p.2).1)
      else .ok (clean_and_validate_data p.1)


/-! ## Concrete fixtures for claim instances -/

/-- The first GolfDay curated record (Augusta National), as in
`scrape_golfday_top_clubs`. -/
def golfdayHead : RawRow :=
  clubRec "Augusta National Golf Club" "GA" "Augusta"
    25000 "(706) 667-6000"
    "https://www.masters.com/"
    "2604 Washington Road, Augusta, GA 30904"
    "Elite" "Invitation Only" 500000
    "Cart Fees: $75/round; Caddies Required: $200/round"

/-- The first fallback base record (Augusta National), as in
`get_fallback_country_club_data`. -/
def fallbackHead : RawRow :=
  clubRec "Augusta National Golf Club" "GA" "Augusta"
    25000 "(706) 667-6000"
    "https://www.masters.com"
    "2604 Washington Rd, Augusta, GA 30904"
    "Elite" "Invitation Only" 500000
    "Cart Fees: $75/round; Caddies Required: $200/round"

/-- The spec example row `{Name: "  Oak Club ", Region: "ca",
MonthlyFee: "$1,200"}` (other keys absent). -/
def oakRawRow : RawRow :=
  { clubName := some (vStr "  Oak Club "), state := some (vStr "ca"),
    city := none, monthlyDues := some (vStr "$1,200"),
    contactPhone := none, website := none, address := none,
    prestigeLevel := none, membershipType := none, initiationFee := none,
    otherCosts := none }

/-- The normalized form of `oakRawRow`. -/
def oakCleanedRow : CleanedRow :=
  { clubName := "Oak Club", state := "CA", city := "nan",
    monthlyDues := 1200, contactPhone := "", website := "", address := "",
    prestigeLevel := "", membershipType := "", initiationFee := 0,
    otherCosts := "" }

/-- A name- and dues-valid row whose `State` is not a US code. -/
def zzRawRow : RawRow :=
  { clubName := some (vStr "Nowhere Club"), state := some (vStr "zz"),
    city := none, monthlyDues := some (vInt 100), contactPhone := none,
    website := none, address := none, prestigeLevel := none,
    membershipType := none, initiationFee := none, otherCosts := none }

/-- A `Public`-tier record with every enrichable field missing. -/
def pubRawRow : RawRow :=
  { clubName := some (vStr "Township Golf"), state := none, city := none,
    monthlyDues := none, contactPhone := none, website := none,
    address := none, prestigeLevel := some (vStr "Public"),
    membershipType := none, initiationFee := none, otherCosts := none }

/-- A row with valid name and dues but an unparsable `Initiation Fee`. -/
def feeRawRow : RawRow :=
  { clubName := some (vStr "Fee Club"), state := some (vStr "NY"),
    city := none, monthlyDues := some (vInt 1), contactPhone := none,
    website := none, address := none, prestigeLevel := none,
    membershipType := none, initiationFee := some (vStr "call for details"),
    otherCosts := none }

/-- The same unparsable text placed in `Monthly Dues` instead. -/
def badDuesRow : RawRow :=
  { clubName := some (vStr "Fee Club"), state := some (vStr "NY"),
    city := none, monthlyDues := some (vStr "call for details"),
    contactPhone := none, website := none, address := none,
    prestigeLevel := none, membershipType := none, initiationFee := none,
    otherCosts := none }

/-- A dues-valid row whose `Club Name` cell is missing (NaN). -/
def nanNameRow : RawRow :=
  { clubName := none, state := some (vStr "TX"), city := none,
    monthlyDues := some (vInt 100), contactPhone := none, website := none,
    address := none, prestigeLevel := none, membershipType := none,
    initiationFee := none, otherCosts := none }

/-- An Elite record in CA with no `Monthly Dues`. -/
def eliteCaRow : RawRow :=
  { clubName := some (vStr "Cliffside Club"), state := some (vStr "CA"),
    city := none, monthlyDues := none, contactPhone := none,
    website := none, address := none,
    prestigeLevel := some (vStr "Elite"), membershipType := none,
    initiationFee := none, otherCosts := none }

/-- A named record an extraction oracle can return. -/
def xRecRow : RawRow :=
  { clubName := some (vStr "X Club"), state := some (vStr "NY"),
    city := none, monthlyDues := some (vInt 500), contactPhone := none,
    website := none, address := none, prestigeLevel := none,
    membershipType := none, initiationFee := none, otherCosts := none }

/-- A page body of exactly 100 characters. -/
def content100 : String := ⟨List.replicate 100 'a'⟩

/-- A page body of 101 characters. -/
def content101 : String := ⟨List.replicate 101 'a'⟩

/-- A fetch oracle returning the 100-character body for every URL. -/
def fetch100 : String → String := fun _ => content100

/-- A fetch oracle returning the 101-character body for every URL. -/
def fetchLong : String → String := fun _ => content101

/-- An extraction oracle always returning the named record. -/
def extractX : String → String → Option RawRow := fun _ _ => some xRecRow

/-- The cleaned form of `zzRawRow`. -/
def zzCleanedRow : CleanedRow :=
  { clubName := "Nowhere Club", state := "ZZ", city := "nan",
    monthlyDues := 100, contactPhone := "", website := "", address := "",
    prestigeLevel := "", membershipType := "", initiationFee := 0,
    otherCosts := "" }

/-- An extraction oracle always returning the invalid-state record. -/
def zzExtract : String → String → Option RawRow := fun _ _ => some zzRawRow

/-! ## General lemmas -/

/-- `drop_duplicates(keep := first)`, observed through a key filter:
the rows of the output carrying key `k` are exactly the first input row
carrying `k` (and none at all if `k` was already seen). -/
theorem dedupBy_filter_key {κ : Type} [DecidableEq κ] (key : RawRow → κ)
    (l : List RawRow) (seen : List κ) (k : κ) :
    (dedupBy key l seen).filter (fun x => key x = k) =
      if k ∈ seen then [] else (l.find? (fun x => key x = k)).toList := by
  induction l generalizing seen with
  | nil => simp [dedupBy]
  | cons x xs ih =>
      by_cases hx : key x ∈ seen
      · rw [dedupBy, if_pos hx, ih]
        by_cases hk : k ∈ seen
        · simp [hk]
        · have hxk : ¬ key x = k := fun h => hk (h ▸ hx)
          simp [hk, List.find?_cons, hxk]
      · rw [dedupBy, if_neg hx]
        by_cases hxk : key x = k
        · have hk : ¬ k ∈ seen := by rw [← hxk]; exact hx
          rw [List.filter_cons, ih (key x :: seen)]
          simp [hk, hxk, List.find?_cons]
        · rw [List.filter_cons]
          simp only [hxk, decide_False, if_false, Bool.false_eq_true]
          rw [ih]
          by_cases hk : k ∈ seen
          · simp [hk, hxk]
          · have : ¬ k ∈ key x :: seen := by
              intro h
              rcases List.mem_cons.mp h with h | h
              · exact hxk h.symm
              · exact hk h
            simp [hk, this, List.find?_cons, hxk]

/-- `randint` stays inside its interval. -/
theorem randint_bounds (a b : Int) (g : List Nat) (h : a ≤ b) :
    a ≤ (randint a b g).1 ∧ (randint a b g).1 ≤ b := by
  cases g with
  | nil => simp [randint]; omega
  | cons n rest =>
      have h1 : 0 ≤ (n : Int) % (b - a + 1) :=
        Int.emod_nonneg _ (by omega)
      have h2 : (n : Int) % (b - a + 1) < b - a + 1 :=
        Int.emod_lt_of_pos _ (by omega)
      simp [randint]
      omega

/-- Every pricing row has a monthly floor of at least 50, ordered
ranges, and non-negative initiation floor. -/
theorem pricing_entry_bounds (e : PricingEntry) (h : e ∈ base_pricing) :
    50 ≤ e.monthlyLo ∧ e.monthlyLo ≤ e.monthlyHi ∧
      0 ≤ e.initLo ∧ e.initLo ≤ e.initHi := by
  revert e
  decide

/-- Every location multiplier lies between 1.0 and 1.8 (in tenths). -/
theorem multiplierFor_bounds (v : Value) :
    10 ≤ multiplierFor v ∧ multiplierFor v ≤ 18 := by
  cases v with
  | vInt n => simp [multiplierFor]
  | vStr s =>
      cases hf : location_multipliers.find? (fun p => p.1 = s) with
      | none => simp [multiplierFor, hf]
      | some p =>
          have hp : p ∈ location_multipliers := List.mem_of_find?_eq_some hf
          have : ∀ q ∈ location_multipliers, 10 ≤ q.2 ∧ q.2 ≤ 18 := by decide
          have := this p hp
          simp [multiplierFor, hf]
          omega

/-- Scaled multiplication keeps a positive floor: a base of at least 50
and a multiplier of at least 1.0 give a result of at least 50. -/
theorem applyMult_ge (base m10 lo : Int) (hb : lo ≤ base) (h0 : 0 ≤ lo)
    (hm : 10 ≤ m10) : lo ≤ applyMult base m10 := by
  have : lo * 10 ≤ base * m10 := mul_le_mul hb hm (by omega) (by omega)
  unfold applyMult
  omega

/-- The monthly-dues estimate is at least 50 (so always truthy). -/
theorem estimate_monthly_dues_ge (r : RawRow) (g : List Nat) :
    50 ≤ (estimate_monthly_dues r g).1 := by
  unfold estimate_monthly_dues
  have hm := multiplierFor_bounds (r.state.getD (vStr "Unknown"))
  cases hf : findPricing (r.prestigeLevel.getD (vStr "Traditional")) with
  | some e =>
      have he : e ∈ base_pricing := by
        cases hp : r.prestigeLevel.getD (vStr "Traditional") with
        | vStr s =>
            rw [hp] at hf
            exact List.mem_of_find?_eq_some (by simpa [findPricing] using hf)
        | vInt n => rw [hp] at hf; simp [findPricing] at hf
      have hb := pricing_entry_bounds e he
      have hr := randint_bounds e.monthlyLo e.monthlyHi g (by omega)
      simp only [hf]
      exact applyMult_ge _ _ 50 (by omega) (by omega) (by omega)
  | none =>
      have hr := randint_bounds 2000 6000 g (by omega)
      simp only [hf]
      have := applyMult_ge (randint 2000 6000 g).1 _ 50 (by omega) (by omega)
        (hm.1)
      exact this

/-- A concatenation whose left part is non-empty is non-empty. -/
theorem append_ne_left (s t : String) (h : s ≠ "") : s ++ t ≠ "" := by
  intro he
  apply h
  apply String.ext
  have hd : (s ++ t).data = [] := by rw [he]
  rw [String.data_append] at hd
  exact List.append_eq_nil.mp hd |>.1

/-- Every branch of `generate_other_costs` yields a non-empty string. -/
theorem generate_other_costs_ne (r : RawRow) (g : List Nat) :
    (generate_other_costs r g).1 ≠ "" := by
  simp only [generate_other_costs, joinStrs]
  split
  · repeat apply append_ne_left
    decide
  · split
    · repeat apply append_ne_left
      decide
    · split
      · repeat apply append_ne_left
        decide
      · split
        · repeat apply append_ne_left
          decide
        · repeat apply append_ne_left
          decide

/-- `fillMonthly` touches no field other than `Monthly Dues`. -/
theorem fillMonthly_fields (r : RawRow) (g : List Nat) :
    (fillMonthly r g).1.initiationFee = r.initiationFee ∧
    (fillMonthly r g).1.otherCosts = r.otherCosts ∧
    (fillMonthly r g).1.prestigeLevel = r.prestigeLevel ∧
    (fillMonthly r g).1.state = r.state ∧
    (fillMonthly r g).1.membershipType = r.membershipType ∧
    (fillMonthly r g).1.clubName = r.clubName := by
  unfold fillMonthly
  split <;> simp

/-- `fillInitiation` touches no field other than `Initiation Fee`. -/
theorem fillInitiation_fields (r : RawRow) (g : List Nat) :
    (fillInitiation r g).1.monthlyDues = r.monthlyDues ∧
    (fillInitiation r g).1.otherCosts = r.otherCosts ∧
    (fillInitiation r g).1.prestigeLevel = r.prestigeLevel ∧
    (fillInitiation r g).1.state = r.state ∧
    (fillInitiation r g).1.membershipType = r.membershipType ∧
    (fillInitiation r g).1.clubName = r.clubName := by
  unfold fillInitiation
  split <;> simp

/-- `fillOther` touches no field other than `Other Costs`. -/
theorem fillOther_fields (r : RawRow) (g : List Nat) :
    (fillOther r g).1.monthlyDues = r.monthlyDues ∧
    (fillOther r g).1.initiationFee = r.initiationFee ∧
    (fillOther r g).1.prestigeLevel = r.prestigeLevel ∧
    (fillOther r g).1.state = r.state ∧
    (fillOther r g).1.membershipType = r.membershipType ∧
    (fillOther r g).1.clubName = r.clubName := by
  unfold fillOther
  split <;> simp

/-- A truthy `Monthly Dues` is never overwritten. -/
theorem fillMonthly_keep (r : RawRow) (g : List Nat)
    (h : truthyO r.monthlyDues = true) : fillMonthly r g = (r, g) := by
  unfold fillMonthly
  simp [h]

/-- A truthy `Initiation Fee` is never overwritten. -/
theorem fillInitiation_keep (r : RawRow) (g : List Nat)
    (h : truthyO r.initiationFee = true) : fillInitiation r g = (r, g) := by
  unfold fillInitiation
  simp [h]

/-- A truthy `Other Costs` is never overwritten. -/
theorem fillOther_keep (r : RawRow) (g : List Nat)
    (h : truthyO r.otherCosts = true) : fillOther r g = (r, g) := by
  unfold fillOther
  simp [h]

/-- After `fillMonthly` the `Monthly Dues` cell is truthy: a kept value
was truthy, a filled estimate is at least 50. -/
theorem fillMonthly_truthy (r : RawRow) (g : List Nat) :
    truthyO ((fillMonthly r g).1.monthlyDues) = true := by
  unfold fillMonthly
  split
  · assumption
  · have := estimate_monthly_dues_ge r g
    simp [truthyO]
    omega

/-- After `fillOther` the `Other Costs` cell is truthy. -/
theorem fillOther_truthy (r : RawRow) (g : List Nat) :
    truthyO ((fillOther r g).1.otherCosts) = true := by
  unfold fillOther
  split
  · assumption
  · have := generate_other_costs_ne r g
    simp [truthyO]
    exact this

/-- After enrichment the `Monthly Dues` cell is truthy. -/
theorem enhance_monthly_truthy (r : RawRow) (g : List Nat) :
    truthyO ((enhance_club_data r g).1.monthlyDues) = true := by
  unfold enhance_club_data
  rw [(fillOther_fields _ _).1, (fillInitiation_fields _ _).1]
  exact fillMonthly_truthy r g

/-- After enrichment the `Other Costs` cell is truthy. -/
theorem enhance_other_truthy (r : RawRow) (g : List Nat) :
    truthyO ((enhance_club_data r g).1.otherCosts) = true := by
  unfold enhance_club_data
  exact fillOther_truthy _ _

/-- A record with all three enrichable fields truthy passes through
`enhance_club_data` unchanged (and consumes no draws). -/
theorem enhance_keep_all (r : RawRow) (g : List Nat)
    (h1 : truthyO r.monthlyDues = true)
    (h2 : truthyO r.initiationFee = true)
    (h3 : truthyO r.otherCosts = true) :
    enhance_club_data r g = (r, g) := by
  simp [enhance_club_data, fillMonthly_keep r g h1,
    fillInitiation_keep r g h2, fillOther_keep r g h3]

/-- Elimination form of `cleanRow`: a kept row determines every output
field from the raw cells. -/
theorem cleanRow_some_elim (r : RawRow) (cr : CleanedRow)
    (h : cleanRow r = some cr) :
    stripStr (valueToStr r.clubName) ≠ "" ∧
    ∃ q, parseNumeric (moneyStr r.monthlyDues) = some q ∧ ¬ q < 0 ∧
      cr = { clubName := stripStr (valueToStr r.clubName),
             state := upperStr (stripStr (valueToStr r.state)),
             city := stripStr (valueToStr r.city),
             monthlyDues := q,
             contactPhone := cleanOpt (stripStr (valueToStr r.contactPhone)),
             website :=
               fixWebsite (cleanOpt (stripStr (valueToStr r.website))),
             address := cleanOpt (stripStr (valueToStr r.address)),
             prestigeLevel :=
               cleanOpt (stripStr (valueToStr r.prestigeLevel)),
             membershipType :=
               cleanOpt (stripStr (valueToStr r.membershipType)),
             initiationFee :=
               (parseNumeric (moneyStr r.initiationFee)).getD 0,
             otherCosts := cleanOpt (stripStr (valueToStr r.otherCosts)) } := by
  by_cases hn : stripStr (valueToStr r.clubName) = ""
  · simp only [cleanRow, if_pos hn] at h
    exact Option.noConfusion h
  · cases hq : parseNumeric (moneyStr r.monthlyDues) with
    | none =>
        simp only [cleanRow, if_neg hn, hq] at h
        exact Option.noConfusion h
    | some q =>
        by_cases hlt : q < 0
        · simp only [cleanRow, if_neg hn, hq, if_pos hlt] at h
          exact Option.noConfusion h
        · simp only [cleanRow, if_neg hn, hq, if_neg hlt] at h
          exact ⟨hn, q, rfl, hlt, (Option.some.inj h).symm⟩

/-- A cleaned row always carries a non-negative `Monthly Dues`. -/
theorem cleanRow_dues_nonneg (r : RawRow) (cr : CleanedRow)
    (h : cleanRow r = some cr) : 0 ≤ cr.monthlyDues := by
  obtain ⟨-, q, -, hlt, hcr⟩ := cleanRow_some_elim r cr h
  rw [hcr]
  simpa using le_of_not_lt hlt

/-- Cleaned `State` is exactly the upper-cased trim of the raw cell. -/
theorem cleanRow_state (r : RawRow) (cr : CleanedRow)
    (h : cleanRow r = some cr) :
    cr.state = upperStr (stripStr (valueToStr r.state)) := by
  obtain ⟨-, q, -, -, hcr⟩ := cleanRow_some_elim r cr h
  rw [hcr]

/-- Cleaned `Club Name` is exactly the trim of the raw cell. -/
theorem cleanRow_name (r : RawRow) (cr : CleanedRow)
    (h : cleanRow r = some cr) :
    cr.clubName = stripStr (valueToStr r.clubName) := by
  obtain ⟨-, q, -, -, hcr⟩ := cleanRow_some_elim r cr h
  rw [hcr]

/-- An unparsable `Initiation Fee` is defaulted to `0` on a kept row. -/
theorem cleanRow_initiation_default (r : RawRow) (cr : CleanedRow)
    (h : cleanRow r = some cr)
    (hini : parseNumeric (moneyStr r.initiationFee) = none) :
    cr.initiationFee = 0 := by
  obtain ⟨-, q, -, -, hcr⟩ := cleanRow_some_elim r cr h
  rw [hcr]
  simp [hini]

/-- Among name-valid rows, keeping is exactly `Monthly Dues` parsing to
a non-negative number. -/
theorem cleanRow_isSome_iff (r : RawRow)
    (hname : stripStr (valueToStr r.clubName) ≠ "") :
    (cleanRow r).isSome = true ↔
      ∃ q, parseNumeric (moneyStr r.monthlyDues) = some q ∧ 0 ≤ q := by
  cases hq : parseNumeric (moneyStr r.monthlyDues) with
  | none =>
      simp only [cleanRow, if_neg hname, hq]
      simp
  | some q =>
      by_cases hlt : q < 0
      · simp only [cleanRow, if_neg hname, hq, if_pos hlt]
        simp
        linarith
      · simp only [cleanRow, if_neg hname, hq, if_neg hlt]
        simp
        linarith

/-- A row whose `Monthly Dues` does not parse is dropped. -/
theorem cleanRow_dropped_of_unparsable (r : RawRow)
    (h : parseNumeric (moneyStr r.monthlyDues) = none) :
    cleanRow r = none := by
  by_cases hn : stripStr (valueToStr r.clubName) = ""
  · simp only [cleanRow, if_pos hn]
  · simp only [cleanRow, if_neg hn, h]

/-- `clean_and_validate_data` on a cons whose head survives. -/
theorem clean_cons_some (r : RawRow) (rs : List RawRow) (cr : CleanedRow)
    (h : cleanRow r = some cr) :
    clean_and_validate_data (r :: rs) = cr :: clean_and_validate_data rs := by
  simp [clean_and_validate_data, List.filterMap_cons, h]

/-- Membership in the cleaned table comes from some raw row. -/
theorem mem_clean (cr : CleanedRow) (rows : List RawRow)
    (h : cr ∈ clean_and_validate_data rows) :
    ∃ r ∈ rows, cleanRow r = some cr := by
  simpa using List.mem_filterMap.mp h

/-- `drop_duplicates(keep := first)` keeps the head of the staging
table. -/
theorem dedupBy_cons_head {κ : Type} [DecidableEq κ] (key : RawRow → κ)
    (x : RawRow) (xs : List RawRow) :
    dedupBy key (x :: xs) [] = x :: dedupBy key xs [key x] := by
  simp [dedupBy]

/-- The Elite monthly estimate under the CA multiplier lands in
`[27000, 54000]`. -/
theorem estimate_monthly_elite_ca (r : RawRow) (g : List Nat)
    (hp : r.prestigeLevel = some (vStr "Elite"))
    (hs : r.state = some (vStr "CA")) :
    27000 ≤ (estimate_monthly_dues r g).1 ∧
      (estimate_monthly_dues r g).1 ≤ 54000 := by
  have hf : findPricing ((some (vStr "Elite")).getD (vStr "Traditional")) =
      some ⟨"Elite", 350000, 750000, 15000, 30000⟩ := by decide
  have hm : multiplierFor ((some (vStr "CA")).getD (vStr "Unknown")) = 18 := by
    decide
  simp only [estimate_monthly_dues, hp, hs, hf, hm]
  have hr := randint_bounds 15000 30000 g (by omega)
  unfold applyMult
  omega

/-- The AI scraping loop distributes over concatenation of URL lists:
each URL contributes independently and in order. -/
theorem scrape_append (fetch : String → String)
    (extract : String → String → Option RawRow)
    (us vs : List String) (g : List Nat) :
    scrape_private_clubs_with_ai fetch extract (us ++ vs) g =
      ((scrape_private_clubs_with_ai fetch extract us g).1 ++
        (scrape_private_clubs_with_ai fetch extract vs
          (scrape_private_clubs_with_ai fetch extract us g).2).1,
       (scrape_private_clubs_with_ai fetch extract vs
          (scrape_private_clubs_with_ai fetch extract us g).2).2) := by
  induction us generalizing g with
  | nil => simp [scrape_private_clubs_with_ai]
  | cons u us ih =>
      show scrape_private_clubs_with_ai fetch extract (u :: (us ++ vs)) g = _
      rw [scrape_private_clubs_with_ai, ih, scrape_private_clubs_with_ai]
      simp [List.append_assoc]

/-- A raw list containing one row that survives cleaning yields a
non-empty cleaned table. -/
theorem clean_ne_of_mem (r : RawRow) (l : List RawRow) (hr : r ∈ l)
    (h : (cleanRow r).isSome = true) : clean_and_validate_data l ≠ [] := by
  intro he
  obtain ⟨c, hc⟩ := Option.isSome_iff_exists.mp h
  have hm : c ∈ clean_and_validate_data l := List.mem_filterMap.mpr ⟨r, hr, hc⟩
  rw [he] at hm
  exact List.not_mem_nil c hm

/-- The staging table of `get_comprehensive_club_data` is never empty
(the GolfDay curated list leads it), so the aggregator always takes the
dedup branch. -/
theorem comprehensive_eq (fetch : String → String)
    (extract : String → String → Option RawRow) (g : List Nat) :
    get_comprehensive_club_data fetch extract g =
      dedupBy dedupKey
        (scrape_golfday_top_clubs ++ (scrape_invited_clubs_data g).1 ++
          (scrape_private_clubs_with_ai fetch extract private_club_urls
            (scrape_invited_clubs_data g).2).1) [] := by
  have hne : scrape_golfday_top_clubs ++ (scrape_invited_clubs_data g).1 ++
      (scrape_private_clubs_with_ai fetch extract private_club_urls
        (scrape_invited_clubs_data g).2).1 ≠ [] := by
    intro h
    rcases List.append_eq_nil.mp h with ⟨h1, -⟩
    rcases List.append_eq_nil.mp h1 with ⟨h2, -⟩
    exact (by decide : scrape_golfday_top_clubs ≠ []) h2
  simp only [get_comprehensive_club_data, if_neg hne]

/-- A curated GolfDay record that is the first hit for its key filters
out of the aggregated table as the unique survivor for that key. -/
theorem comprehensive_filter_curated (fetch : String → String)
    (extract : String → String → Option RawRow) (g : List Nat) (c : RawRow)
    (hc : List.find? (fun x => dedupKey x = dedupKey c)
      scrape_golfday_top_clubs = some c) :
    (get_comprehensive_club_data fetch extract g).filter
      (fun x => dedupKey x = dedupKey c) = [c] := by
  rw [comprehensive_eq, dedupBy_filter_key,
    if_neg (List.not_mem_nil (dedupKey c)), List.find?_append,
    List.find?_append, hc]
  rfl

/-- The curated head record is present in every aggregated table. -/
theorem mem_comprehensive_head (fetch : String → String)
    (extract : String → String → Option RawRow) (g : List Nat) :
    golfdayHead ∈ get_comprehensive_club_data fetch extract g := by
  have h := comprehensive_filter_curated fetch extract g golfdayHead (by decide)
  have hm : golfdayHead ∈ (get_comprehensive_club_data fetch extract g).filter
      (fun x => dedupKey x = dedupKey golfdayHead) := by
    rw [h]
    exact List.mem_cons_self _ _
  exact List.mem_of_mem_filter hm

/-- The aggregated table is never empty. -/
theorem comprehensive_ne (fetch : String → String)
    (extract : String → String → Option RawRow) (g : List Nat) :
    get_comprehensive_club_data fetch extract g ≠ [] := by
  intro h
  have hm := mem_comprehensive_head fetch extract g
  rw [h] at hm
  exact List.not_mem_nil _ hm

/-- The dedup key of a synthesized record depends only on the catalog
entry, never on the random draws. -/
theorem genClub_key (st : String) (m : Int) (i j : Nat) (city : String)
    (g : List Nat) :
    dedupKey (genClub st m i j city g).1 =
      (some (vStr (city ++ " " ++
        (club_types.getD ((i + j) % club_types.length)
          ("Country Club", "Private", "Premier")).1)), some (vStr st)) := rfl

/-- The key column of a synthesized city batch is oracle-independent. -/
theorem genCities_keys_const (st : String) (m : Int) (i : Nat)
    (cs : List String) :
    ∀ (j : Nat) (g g' : List Nat),
      (genCities st m i j cs g).1.map dedupKey =
        (genCities st m i j cs g').1.map dedupKey := by
  induction cs with
  | nil => intros; rfl
  | cons c cs ih =>
      intro j g g'
      simp only [genCities, List.map_cons, genClub_key]
      exact congrArg (List.cons _) (ih (j + 1) _ _)

/-- The key column of the whole synthetic batch is oracle-independent. -/
theorem genRegions_keys_const (rs : List (String × List String × Int)) :
    ∀ (i : Nat) (g g' : List Nat),
      (genRegions i rs g).1.map dedupKey =
        (genRegions i rs g').1.map dedupKey := by
  induction rs with
  | nil => intros; rfl
  | cons r rs ih =>
      intro i g g'
      simp only [genRegions, List.map_append]
      rw [genCities_keys_const r.1 r.2.2 i r.2.1 0 g g',
        ih (i + 1) (genCities r.1 r.2.2 i 0 r.2.1 g).2
          (genCities r.1 r.2.2 i 0 r.2.1 g').2]

/-- The key column of the fallback table is oracle-independent. -/
theorem extended_keys_const (g : List Nat) :
    (get_extended_club_data g).1.map dedupKey =
      (get_extended_club_data []).1.map dedupKey := by
  show (get_fallback_country_club_data ++ (genRegions 0 fallbackRegions g).1).map
      dedupKey = _
  simp only [List.map_append]
  rw [genRegions_keys_const fallbackRegions 0 g []]
  rfl

/-- No two rows of the fallback table (curated base plus synthetic
batch) ever share a `(Club Name, State)` key, for any draw oracle. -/
theorem extended_keys_nodup (g : List Nat) :
    ((get_extended_club_data g).1.map dedupKey).Nodup := by
  rw [extended_keys_const]
  decide

/-! ## Claims -/

/-- C1: every run of the orchestrator `load_country_clubs_data` — its
`get_comprehensive_club_data()` call either raising or returning the
aggregated table for arbitrary network/AI oracles — hands the caller a
successful, non-empty cleaned table (never a silent empty result and
never an unhandled exception): the curated sources guarantee non-empty
data on both the network path and the fallback path, so in particular
the output is non-empty even when network extraction yields no records
for any URL, and the `ValueError` branch is reached only if every
source were empty. -/
theorem c1_fallback_guarantee (comp : CallResult (List RawRow))
    (g : List Nat)
    (h : comp = CallResult.exn ∨ ∃ fetch extract gc,
      comp = CallResult.ok (get_comprehensive_club_data fetch extract gc)) :
    ∃ rows, load_country_clubs_data comp g = Except.ok rows ∧ rows ≠ [] := by
  have hext : ∀ g' : List Nat,
      clean_and_validate_data (get_extended_club_data g').1 ≠ [] := by
    intro g'
    apply clean_ne_of_mem fallbackHead
    · exact List.mem_append_left _ (by decide)
    · decide
  rcases h with h | ⟨fetch, extract, gc, h⟩
  · subst h
    exact ⟨_, rfl, hext g⟩
  · subst h
    have hdf := comprehensive_ne fetch extract gc
    refine ⟨clean_and_validate_data (get_comprehensive_club_data fetch extract gc),
      ?_, ?_⟩
    · simp [load_country_clubs_data, hdf]
    · exact clean_ne_of_mem golfdayHead _
        (mem_comprehensive_head fetch extract gc) (by decide)

/-- C1 witness: the fallback path at a concrete input. -/
theorem c1_fallback_guarantee_witness :
    ∃ rows, load_country_clubs_data CallResult.exn [] = Except.ok rows ∧
      rows ≠ [] :=
  c1_fallback_guarantee CallResult.exn [] (Or.inl rfl)

set_option maxRecDepth 10000 in
/-- C2 counterexample: a concrete run of `load_country_clubs_data`
(network extraction returning a record whose `State` is `"zz"`) whose
output table contains the state `"ZZ"`, which is not in the 51-code
set — the claimed drop during normalization does not happen, because
`validate_state_codes` is never invoked by the pipeline. -/
theorem c2_counterexample :
    ∃ cr ∈ (load_country_clubs_data
        (CallResult.ok (get_comprehensive_club_data fetchLong zzExtract []))
        []).toOption.getD [],
      cr.state = "ZZ" ∧ ¬ cr.state ∈ us_states.map Prod.snd := by
  decide

/-- C2 amended: the normalization used by `load_country_clubs_data`
only trims and upper-cases `State` and never drops a row for an invalid
code; the 51-code filter exists in `validate_state_codes` — every row
of its output has `State` in the 51-code set — but no pipeline stage
calls it. -/
theorem c2_state_codes_amended (rows : List CleanedRow) (raw : RawRow)
    (cr : CleanedRow) (h : cleanRow raw = some cr) :
    (∀ v ∈ validate_state_codes rows, v.state ∈ us_states.map Prod.snd) ∧
    cr.state = upperStr (stripStr (valueToStr raw.state)) := by
  constructor
  · intro v hv
    have h2 := (List.mem_filter.mp hv).2
    simpa using h2
  · exact cleanRow_state raw cr h

/-- C2 amended witness: the invalid-state row at a concrete input. -/
theorem c2_state_codes_amended_witness :
    (∀ v ∈ validate_state_codes [], v.state ∈ us_states.map Prod.snd) ∧
    zzCleanedRow.state = upperStr (stripStr (valueToStr zzRawRow.state)) :=
  c2_state_codes_amended [] zzRawRow zzCleanedRow (by decide)

/-- C3 counterexample: enrichment is not idempotent.  A `Public`-tier
record with all enrichable fields missing can receive a sampled
`Initiation Fee` of 0 (`randint(0, 5000)` includes 0); 0 is falsy, so a
second enrichment pass resamples and changes the record. -/
theorem c3_counterexample :
    (enhance_club_data (enhance_club_data pubRawRow [0, 0, 0, 0]).1 [1]).1 ≠
      (enhance_club_data pubRawRow [0, 0, 0, 0]).1 := by
  decide

/-- C3 amended: enrichment never overwrites a truthy field, and it is
idempotent except when the first pass itself fills `Initiation Fee`
with the falsy value 0 — whenever the enriched record's
`Initiation Fee` is truthy, a second pass is the identity (the filled
`Monthly Dues` and `Other Costs` are always truthy). -/
theorem c3_enrichment_amended (r : RawRow) (g g2 : List Nat)
    (h : truthyO ((enhance_club_data r g).1.initiationFee) = true) :
    (truthyO r.monthlyDues = true →
      (enhance_club_data r g).1.monthlyDues = r.monthlyDues) ∧
    (truthyO r.initiationFee = true →
      (enhance_club_data r g).1.initiationFee = r.initiationFee) ∧
    (truthyO r.otherCosts = true →
      (enhance_club_data r g).1.otherCosts = r.otherCosts) ∧
    enhance_club_data (enhance_club_data r g).1 g2 =
      ((enhance_club_data r g).1, g2) := by
  refine ⟨?_, ?_, ?_, ?_⟩
  · intro hm
    unfold enhance_club_data
    rw [(fillOther_fields _ _).1, (fillInitiation_fields _ _).1,
      fillMonthly_keep r g hm]
  · intro hi
    have h1 : truthyO ((fillMonthly r g).1.initiationFee) = true := by
      rw [(fillMonthly_fields r g).1]
      exact hi
    unfold enhance_club_data
    rw [(fillOther_fields _ _).2.1, fillInitiation_keep _ _ h1,
      (fillMonthly_fields r g).1]
  · intro ho
    have h1 : truthyO ((fillMonthly r g).1.otherCosts) = true := by
      rw [(fillMonthly_fields r g).2.1]
      exact ho
    have h2 : truthyO ((fillInitiation (fillMonthly r g).1
        (fillMonthly r g).2).1.otherCosts) = true := by
      rw [(fillInitiation_fields _ _).2.1]
      exact h1
    unfold enhance_club_data
    rw [fillOther_keep _ _ h2, (fillInitiation_fields _ _).2.1,
      (fillMonthly_fields r g).2.1]
  · exact enhance_keep_all _ g2 (enhance_monthly_truthy r g) h
      (enhance_other_truthy r g)

/-- C3 amended witness: a concrete enrichment whose second pass is the
identity. -/
theorem c3_enrichment_amended_witness :
    truthyO ((enhance_club_data pubRawRow [1, 1, 1, 1]).1.initiationFee) =
      true ∧
    enhance_club_data (enhance_club_data pubRawRow [1, 1, 1, 1]).1 [] =
      ((enhance_club_data pubRawRow [1, 1, 1, 1]).1, []) := by
  have h : truthyO ((enhance_club_data pubRawRow [1, 1, 1, 1]).1.initiationFee)
      = true := by decide
  exact ⟨h, (c3_enrichment_amended pubRawRow [1, 1, 1, 1] [] h).2.2.2⟩

/-- C4: the aggregator deduplicates the concatenated provider outputs
on the exact `(Club Name, State)` key keeping the first occurrence, and
the staging order puts curated records first, so for every curated
GolfDay record and arbitrary network-extraction results exactly one row
with that record's key survives — the curated one.  The synthetic
provider only ever appears on the fallback path, where no two rows
share a key for any draw oracle, so no lower-priority record ever
displaces a higher-priority one there either. -/
theorem c4_dedup_priority (c : RawRow) (fetch : String → String)
    (extract : String → String → Option RawRow) (gc g2 : List Nat)
    (hc : c ∈ scrape_golfday_top_clubs) :
    (get_comprehensive_club_data fetch extract gc).filter
      (fun x => dedupKey x = dedupKey c) = [c] ∧
    ((get_extended_club_data g2).1.map dedupKey).Nodup := by
  constructor
  · apply comprehensive_filter_curated
    fin_cases hc <;> decide
  · exact extended_keys_nodup g2

/-- C4 witness: the curated Augusta record wins dedup against an
extraction oracle that returns a same-key record for every URL. -/
theorem c4_dedup_priority_witness :
    (get_comprehensive_club_data fetchLong
        (fun _ _ => some golfdayHead) [] ).filter
      (fun x => dedupKey x = dedupKey golfdayHead) = [golfdayHead] ∧
    ((get_extended_club_data []).1.map dedupKey).Nodup :=
  c4_dedup_priority golfdayHead fetchLong (fun _ _ => some golfdayHead) [] []
    (by decide)

/-- C5: normalization strips `$` and `,` from `Monthly Dues` and
parses it numerically (`"$12,500"` parses to 12500); among rows passing
the name filter, a row is kept exactly when the fee parses
non-negative; every row of any cleaned table has a non-negative fee;
and the spec's Oak Club example normalizes exactly as stated. -/
theorem c5_monthly_fee_normalization (rows : List RawRow) (raw : RawRow)
    (hname : stripStr (valueToStr raw.clubName) ≠ "") :
    (∀ cr ∈ clean_and_validate_data rows, 0 ≤ cr.monthlyDues) ∧
    ((cleanRow raw).isSome = true ↔
      ∃ q, parseNumeric (moneyStr raw.monthlyDues) = some q ∧ 0 ≤ q) ∧
    parseNumeric (moneyStr (some (vStr "$12,500"))) = some 12500 ∧
    clean_and_validate_data [oakRawRow] = [oakCleanedRow] := by
  refine ⟨?_, cleanRow_isSome_iff raw hname, by decide, by decide⟩
  intro cr hcr
  obtain ⟨r, -, hr⟩ := mem_clean cr rows hcr
  exact cleanRow_dues_nonneg r cr hr

/-- C5 witness: the Oak Club example instantiated concretely. -/
theorem c5_monthly_fee_normalization_witness :
    ((cleanRow oakRawRow).isSome = true ↔
      ∃ q, parseNumeric (moneyStr oakRawRow.monthlyDues) = some q ∧ 0 ≤ q) ∧
    clean_and_validate_data [oakRawRow] = [oakCleanedRow] := by
  have h := c5_monthly_fee_normalization [oakRawRow] oakRawRow (by decide)
  exact ⟨h.2.1, h.2.2.2⟩

/-- C6: an unparsable `Initiation Fee` is coerced to 0 and the row is
kept, while the same unparsable text in `Monthly Dues` drops the
row. -/
theorem c6_entry_fee_default (raw bad : RawRow)
    (hname : stripStr (valueToStr raw.clubName) ≠ "")
    (hdues : ∃ q, parseNumeric (moneyStr raw.monthlyDues) = some q ∧ 0 ≤ q)
    (hini : parseNumeric (moneyStr raw.initiationFee) = none)
    (hbad : parseNumeric (moneyStr bad.monthlyDues) = none) :
    (∃ cr, cleanRow raw = some cr ∧ cr.initiationFee = 0) ∧
    cleanRow bad = none := by
  constructor
  · have hs := (cleanRow_isSome_iff raw hname).mpr hdues
    obtain ⟨cr, hcr⟩ := Option.isSome_iff_exists.mp hs
    exact ⟨cr, hcr, cleanRow_initiation_default raw cr hcr hini⟩
  · exact cleanRow_dropped_of_unparsable bad hbad

/-- C6 witness: the same unparsable text kept as `EntryFee` 0 but
dropping the row when placed in `MonthlyFee`. -/
theorem c6_entry_fee_default_witness :
    (∃ cr, cleanRow feeRawRow = some cr ∧ cr.initiationFee = 0) ∧
    cleanRow badDuesRow = none :=
  c6_entry_fee_default feeRawRow badDuesRow (by decide)
    ⟨1, by decide, by decide⟩ (by decide) (by decide)

/-- C7 counterexample: at a fetched content length of exactly 100 — not
`< 100` — the URL is still skipped even though the extracted record has
a name, contradicting the claimed `< 100` skip threshold. -/
theorem c7_counterexample :
    ¬ content100.length < 100 ∧
    extractX content100 "u" = some xRecRow ∧
    truthyO xRecRow.clubName = true ∧
    (scrape_private_clubs_with_ai fetch100 extractX ["u"] []).1 = [] := by
  decide

/-- C7 amended: the network extraction source processes URLs
independently (the batch result is the ordered concatenation of
per-URL results, so one URL's outcome never affects another's), skips a
URL whenever the fetched content length is at most 100 (the code
requires strictly more than 100 characters), skips it when extraction
returns no record or a record with no name, and otherwise enriches the
record and appends exactly it. -/
theorem c7_scrape_amended (fetch : String → String)
    (extract : String → String → Option RawRow) (g : List Nat)
    (us vs : List String) (u : String) :
    (scrape_private_clubs_with_ai fetch extract (us ++ vs) g).1 =
      (scrape_private_clubs_with_ai fetch extract us g).1 ++
      (scrape_private_clubs_with_ai fetch extract vs
        (scrape_private_clubs_with_ai fetch extract us g).2).1 ∧
    ((fetch u).length ≤ 100 → processUrl fetch extract u g = ([], g)) ∧
    (extract (fetch u) u = none → processUrl fetch extract u g = ([], g)) ∧
    (∀ info, extract (fetch u) u = some info →
      truthyO info.clubName = false →
      processUrl fetch extract u g = ([], g)) ∧
    (∀ info, extract (fetch u) u = some info →
      truthyO info.clubName = true → 100 < (fetch u).length →
      processUrl fetch extract u g =
        ([(enhance_club_data info g).1], (enhance_club_data info g).2)) := by
  refine ⟨?_, ?_, ?_, ?_, ?_⟩
  · rw [scrape_append]
  · intro hlen
    have hcond : ¬ (fetch u ≠ "" ∧ 100 < (fetch u).length) := by
      intro hy
      omega
    simp [processUrl, hcond]
  · intro hex
    unfold processUrl
    split
    · rw [hex]
    · rfl
  · intro info hex hname
    unfold processUrl
    split
    · rw [hex]
      simp [hname]
    · rfl
  · intro info hex hname hlen
    have hne : fetch u ≠ "" := by
      intro h0
      rw [h0] at hlen
      simp at hlen
    unfold processUrl
    rw [if_pos ⟨hne, hlen⟩, hex]
    simp [hname]

/-- C7 amended witness: a 101-character page with a named record is
enriched and appended. -/
theorem c7_scrape_amended_witness :
    100 < (fetchLong "u").length ∧
    processUrl fetchLong extractX "u" [] =
      ([(enhance_club_data xRecRow []).1], (enhance_club_data xRecRow []).2) := by
  have h := c7_scrape_amended fetchLong extractX [] ["u"] [] "u"
  exact ⟨by decide, h.2.2.2.2 xRecRow rfl (by decide) (by decide)⟩

/-- C8: the document fetcher totalizes every failure — whatever the
fetch attempt outcome and the extractor outcome, it returns either the
extracted text (on full success with non-empty download) or the empty
string; and it consults only the first fetch attempt (no retry). -/
theorem c8_fetcher_never_raises
    (attempts : List (CallResult (Option String)))
    (extractO : String → CallResult (Option String))
    (a : CallResult (Option String))
    (rest : List (CallResult (Option String))) :
    (get_website_text_content attempts extractO = "" ∨
      ∃ d t, attempts.headD CallResult.exn = CallResult.ok (some d) ∧
        d ≠ "" ∧ extractO d = CallResult.ok (some t) ∧
        get_website_text_content attempts extractO = t) ∧
    get_website_text_content (a :: rest) extractO =
      get_website_text_content [a] extractO := by
  constructor
  · unfold get_website_text_content
    split
    · exact Or.inl rfl
    · exact Or.inl rfl
    · rename_i d heq
      split
      · exact Or.inl rfl
      · rename_i hd
        split
        · exact Or.inl rfl
        · exact Or.inl rfl
        · rename_i t het
          exact Or.inr ⟨d, t, heq, hd, het, rfl⟩
  · rfl

/-- C9: for an Elite-tier record in CA (multiplier 1.8) with a missing
`Monthly Dues`, enrichment fills an integer fee in `[27000, 54000]`:
the uniform sample lies in the tier range `[15000, 30000]` and is
scaled by 1.8 and truncated to an integer. -/
theorem c9_elite_ca_monthly (r : RawRow) (g : List Nat)
    (hp : r.prestigeLevel = some (vStr "Elite"))
    (hs : r.state = some (vStr "CA"))
    (hd : truthyO r.monthlyDues = false) :
    ∃ n : Int, (enhance_club_data r g).1.monthlyDues = some (vInt n) ∧
      27000 ≤ n ∧ n ≤ 54000 := by
  have e1 : (enhance_club_data r g).1.monthlyDues =
      (fillMonthly r g).1.monthlyDues := by
    unfold enhance_club_data
    rw [(fillOther_fields _ _).1, (fillInitiation_fields _ _).1]
  have e2 : (fillMonthly r g).1.monthlyDues =
      some (vInt (estimate_monthly_dues r g).1) := by
    simp [fillMonthly, hd]
  obtain ⟨h1, h2⟩ := estimate_monthly_elite_ca r g hp hs
  exact ⟨(estimate_monthly_dues r g).1, by rw [e1, e2], h1, h2⟩

/-- C9 witness: a concrete Elite/CA record with missing dues. -/
theorem c9_elite_ca_monthly_witness :
    ∃ n : Int, (enhance_club_data eliteCaRow []).1.monthlyDues =
      some (vInt n) ∧ 27000 ≤ n ∧ n ≤ 54000 :=
  c9_elite_ca_monthly eliteCaRow [] rfl rfl (by decide)

/-- C10: a row whose `Club Name` cell is missing survives cleaning with
the literal name `"nan"`: `astype(str)` renders the missing value as
the non-empty string `"nan"`, and the name pass performs no
nan-to-empty replacement, so the row is neither dropped nor blanked. -/
theorem c10_nan_name_survives (raw : RawRow) (hname : raw.clubName = none)
    (hdues : ∃ q, parseNumeric (moneyStr raw.monthlyDues) = some q ∧ 0 ≤ q) :
    ∃ cr, cleanRow raw = some cr ∧ cr.clubName = "nan" := by
  have hv : stripStr (valueToStr raw.clubName) = "nan" := by
    rw [hname]
    decide
  have hne : stripStr (valueToStr raw.clubName) ≠ "" := by
    rw [hv]
    decide
  have hs := (cleanRow_isSome_iff raw hne).mpr hdues
  obtain ⟨cr, hcr⟩ := Option.isSome_iff_exists.mp hs
  refine ⟨cr, hcr, ?_⟩
  rw [cleanRow_name raw cr hcr, hv]

/-- C10 witness: a concrete missing-name row kept as `"nan"`. -/
theorem c10_nan_name_survives_witness :
    ∃ cr, cleanRow nanNameRow = some cr ∧ cr.clubName = "nan" :=
  c10_nan_name_survives nanNameRow rfl ⟨100, by decide, by decide⟩
